import Mathlib

/-! FUSE load statistics (`fs/fuse/fuse_stat.c`, `fs/fuse/fuse_stat.h`)

A shallow embedding of the load-sampling engine of the FUSE connection:
the busy tracker (`fuse_start_busy`, `fuse_update_busy`), the sampling work
item (`fuse_stat_get_status_work`), the life-cycle functions and the write
handlers of the control files, followed by theorems about them.

Conventions of the embedding.

* C integers are `Nat` (unsigned) and `Int` (signed); a conversion to a
  narrower or differently signed type is written out with `u64`, `s64`,
  `s32`.  The kernel is built with wrapping signed arithmetic, so `x++` on an
  `int` is `s32 (x + 1)`.
* The spin lock is not modelled: every function runs to completion before the
  next one starts.  All clock reads of one call return the values recorded in
  its `Host` argument.
* A division by zero is a fault: the work item returns `none`.
* `window_start_t = 0` is the code's own mark for "window unset", so a window
  opened at `jiffies = 0` reads as unset.  Where a statement needs a freshly
  opened window to read as set, the non-zero clock reading is an explicit
  hypothesis.
* Kernel helpers that are not part of these two files are parameters
  (`Kernel`), inputs (`Host`) or, for the delayed work, a small model of the
  pending flag.
-/

namespace FuseStat

/-! ## Constants of `fuse_stat.h` -/

def FUSE_STAT_INTERVAL_MS : Int := 100
def FUSE_STAT_IDLE_MAX : Int := 3
def FUSE_STAT_LOAD_THRESHOLD : Int := 90
def FUSE_STAT_LOAD_SCALE_UP_THRESHOLD : Int := 60
def FUSE_STAT_LOAD_SCALE_DOWN_THRESHOLD : Int := 30
def FUSE_STAT_LOAD_HIGH_COUNTER_THRESHOLD : Int := 5

/-- The interval `FUSE_STAT_DEFAULT_RATELIMIT_INTERVAL`, `3 * HZ` jiffies;
the tick rate `HZ` of the kernel configuration is a parameter. -/
def FUSE_STAT_DEFAULT_RATELIMIT_INTERVAL (HZ : Nat) : Nat := 3 * HZ

/-! The enumeration `cmd_types`. -/

def FUSE_SCALE_NORMAL : Int := 0
def FUSE_SCALE_UP : Int := 1
def FUSE_SCALE_DOWN : Int := 2

/-! ## Machine integers -/

/-- Conversion to `unsigned long` (64 bit). -/
def u64 (x : Int) : Nat := (x % 2 ^ 64).toNat

/-- Conversion to `long` / `s64`. -/
def s64 (x : Int) : Int := (x + 2 ^ 63) % 2 ^ 64 - 2 ^ 63

/-- Conversion to `int` (32 bit). -/
def s32 (x : Int) : Int := (x + 2 ^ 31) % 2 ^ 32 - 2 ^ 31

/-! ## Data model -/

/-- The record `struct fuse_stat_info`. -/
structure fuse_stat_info where
  tot_busy_t : Nat
  window_start_t : Nat
  busy_start_t : Int
  is_busy_started : Bool
  is_scaled_up : Bool
  load : Int
  load_high_cnt : Int
  idle_cnt : Int
deriving DecidableEq, Repr

/-- The two fields of `struct ratelimit_state` set by `ratelimit_state_init`. -/
structure ratelimit_state where
  interval : Nat
  burst : Nat
deriving DecidableEq, Repr

/-- Modelled from the spec: the kernel's `struct delayed_work` is not part of
these files.  The spec knows one thing about it, whether a fire of the
sampling loop is outstanding: `none` is "no schedule pending", `some d` is
"a fire is pending", armed with a delay of `d` jiffies. -/
abbrev delayed_work := Option Nat

/-- The record `struct fuse_stat` (the spin lock left out). -/
structure fuse_stat where
  info : fuse_stat_info
  delayed_work : delayed_work
  is_enabled : Bool
  is_primary : Bool
  freq_request : Int
  ratelimit : ratelimit_state
  delay_ms : Int
  load_scale_up_thre : Int
  load_scale_down_thre : Int
  load_warn_thre : Int
  debug : Bool
deriving DecidableEq, Repr

/-- Unit conversions of the kernel used by the engine; their bodies are not
part of these files, so the engine is parameterised by them. -/
structure Kernel where
  /-- The helper `jiffies_to_usecs` (takes an `unsigned long`). -/
  jiffies_to_usecs : Nat → Nat
  /-- The helper `ktime_to_us` (takes and returns an `s64`). -/
  ktime_to_us : Int → Int
  /-- The helper `msecs_to_jiffies`. -/
  msecs_to_jiffies : Int → Nat

/-- What a call reads from outside `struct fuse_stat`. -/
structure Host where
  /-- The test `list_empty(&fc->iq.pending)`. -/
  iq_pending_empty : Bool
  /-- The counter `jiffies`. -/
  jiffies : Nat
  /-- The value of `ktime_get()`, in nanoseconds. -/
  ktime : Int
  /-- The field `fc->num_background`. -/
  num_background : Nat
  /-- The field `fc->congestion_threshold`. -/
  congestion_threshold : Nat
  /-- The answer of `__ratelimit(&stat->ratelimit)`, should it be asked. -/
  ratelimit_grant : Bool
  /-- The indeterminate content of the local `int load` of the work item,
  which is read without having been assigned when the window was unset. -/
  load_uninit : Int
deriving DecidableEq, Repr

/-! ## Delayed work -/

/-- Modelled from the spec: `delayed_work_pending`, "a fire is pending". -/
def delayed_work_pending (dw : delayed_work) : Bool := dw.isSome

/-- Modelled from the spec: `schedule_delayed_work` arms the loop to fire
after `delay`; it changes nothing when a fire is already pending. -/
def schedule_delayed_work (dw : delayed_work) (delay : Nat) : delayed_work :=
  match dw with
  | some d => some d
  | none => some delay

/-! ## Busy tracker -/

def fuse_is_stat_supported (fc : fuse_stat) : Bool := fc.is_enabled

def fuse_is_busy (h : Host) : Bool := !h.iq_pending_empty

/-- The function `fuse_start_busy`. -/
def fuse_start_busy (fc : fuse_stat) (h : Host) : fuse_stat :=
  if !fuse_is_stat_supported fc then fc
  else if !fuse_is_busy h then fc
  else
    let fc1 : fuse_stat :=
      if fc.info.window_start_t = 0 then
        { fc with
          info := { fc.info with
            window_start_t := h.jiffies
            tot_busy_t := 0
            is_busy_started := false }
          delayed_work :=
            if !delayed_work_pending fc.delayed_work then
              schedule_delayed_work fc.delayed_work 0
            else fc.delayed_work }
      else fc
    if !fc1.info.is_busy_started then
      { fc1 with info := { fc1.info with busy_start_t := h.ktime, is_busy_started := true } }
    else fc1

/-- The function `fuse_update_busy`. -/
def fuse_update_busy (K : Kernel) (fc : fuse_stat) (h : Host) : fuse_stat :=
  if !fuse_is_stat_supported fc then fc
  else
    let is_busy := fuse_is_busy h
    if !is_busy && fc.info.is_busy_started then
      { fc with info := { fc.info with
          tot_busy_t := u64 (fc.info.tot_busy_t + K.ktime_to_us (s64 (h.ktime - fc.info.busy_start_t)))
          busy_start_t := 0
          is_busy_started := false } }
    else fc

/-! ## Sampling work item -/

/-- The function `fuse_stat_schedule_work`. -/
def fuse_stat_schedule_work (K : Kernel) (stat : fuse_stat) : fuse_stat :=
  { stat with
    delayed_work := schedule_delayed_work stat.delayed_work (K.msecs_to_jiffies stat.delay_ms) }

/-- Lines 540-542 of the work item: `tot_busy_t` once the interval that is
still open has been folded in. -/
def busy_time (K : Kernel) (info : fuse_stat_info) (h : Host) : Nat :=
  if info.is_busy_started then
    u64 (info.tot_busy_t + K.ktime_to_us (s64 (h.ktime - info.busy_start_t)))
  else info.tot_busy_t

/-- Lines 544-545: `total_time`, the length of the window in microseconds. -/
def total_time (K : Kernel) (info : fuse_stat_info) (h : Host) : Nat :=
  K.jiffies_to_usecs (u64 (s64 (h.jiffies) - s64 (info.window_start_t)))

/-- Line 547: `load = (busy_time * 100) / total_time`, an `unsigned long`
quotient stored into an `int`.  Meaningful when `total_time` is not zero. -/
def window_load (K : Kernel) (info : fuse_stat_info) (h : Host) : Int :=
  s32 (((busy_time K info h * 100) % 2 ^ 64 / total_time K info h : Nat) : Int)

/-- Lines 549-557: the threshold decision on a computed load. -/
def decision (stat : fuse_stat) (load : Int) (is_busy : Bool) : fuse_stat :=
  if load = 0 && !is_busy then
    { stat with
      info := { stat.info with idle_cnt := s32 (stat.info.idle_cnt + 1) }
      freq_request := FUSE_SCALE_DOWN }
  else if load > stat.load_scale_up_thre then
    { stat with freq_request := FUSE_SCALE_UP }
  else if load < stat.load_scale_down_thre then
    { stat with freq_request := FUSE_SCALE_DOWN }
  else
    { stat with freq_request := FUSE_SCALE_NORMAL }

/-- Lines 559-560: the congestion override. -/
def congestion_override (stat : fuse_stat) (h : Host) : fuse_stat :=
  if h.num_background > h.congestion_threshold then
    { stat with freq_request := FUSE_SCALE_UP }
  else stat

/-- Lines 537-560: the part of the locked section before the label
`start_window`.  Returns the state and the value of the local `load`;
`none` is the division by zero. -/
def sample_window (K : Kernel) (stat : fuse_stat) (h : Host) (is_busy : Bool) :
    Option (fuse_stat × Int) :=
  if stat.info.window_start_t = 0 then some (stat, h.load_uninit)
  else
    let stat1 : fuse_stat :=
      { stat with info := { stat.info with tot_busy_t := busy_time K stat.info h } }
    if total_time K stat.info h = 0 then none
    else
      let load := window_load K stat.info h
      let stat2 : fuse_stat := { stat1 with info := { stat1.info with load := load } }
      some (congestion_override (decision stat2 load is_busy) h, load)

/-- Lines 562-572: the label `start_window`. -/
def start_window (stat : fuse_stat) (h : Host) (is_busy : Bool) : fuse_stat :=
  { stat with info := { stat.info with
      window_start_t := h.jiffies
      tot_busy_t := 0
      busy_start_t := if is_busy then h.ktime else 0
      is_busy_started := is_busy } }

/-- Lines 587-607: the alert check.  The boolean tells whether `fuse_warn`
was called. -/
def alert_check (stat : fuse_stat) (load : Int) (h : Host) : fuse_stat × Bool :=
  if stat.load_warn_thre ≠ 0 then
    if load > stat.load_warn_thre then
      let cnt := s32 (stat.info.load_high_cnt + 1)
      if cnt ≥ FUSE_STAT_LOAD_HIGH_COUNTER_THRESHOLD && h.ratelimit_grant then
        ({ stat with info := { stat.info with load_high_cnt := 0 } }, true)
      else
        ({ stat with info := { stat.info with load_high_cnt := cnt } }, false)
    else
      ({ stat with info := { stat.info with load_high_cnt := 0 } }, false)
  else (stat, false)

/-- Lines 609-615: reschedule, or stop and clear the window. -/
def continuation (K : Kernel) (stat : fuse_stat) : fuse_stat :=
  if stat.info.idle_cnt < FUSE_STAT_IDLE_MAX then
    fuse_stat_schedule_work K stat
  else
    { stat with info := { stat.info with window_start_t := 0, idle_cnt := 0 } }

/-- Outcome of one run of the work item that did not fault. -/
structure TickResult where
  /-- The state the run leaves. -/
  stat : fuse_stat
  /-- Whether the warning "loading is high" was emitted. -/
  warned : Bool
deriving DecidableEq, Repr

/-- The function `fuse_stat_get_status_work`; `none` is the division by
zero of line 547. -/
def fuse_stat_get_status_work (K : Kernel) (fc : fuse_stat) (h : Host) : Option TickResult :=
  if !fuse_is_stat_supported fc then some { stat := fc, warned := false }
  else
    let is_busy := fuse_is_busy h
    match sample_window K fc h is_busy with
    | none => none
    | some (stat1, load) =>
      let stat2 := start_window stat1 h is_busy
      let checked := alert_check stat2 load h
      some { stat := continuation K checked.1, warned := checked.2 }

/-- Modelled from the spec: the work queue of the kernel is not part of
these files.  The work item runs only when a fire is pending, and the fire
stops being pending as the run starts, so that the run can schedule the next
one. -/
def run_delayed_work (K : Kernel) (fc : fuse_stat) (h : Host) : Option TickResult :=
  match fc.delayed_work with
  | none => some { stat := fc, warned := false }
  | some _ => fuse_stat_get_status_work K { fc with delayed_work := none } h

/-! ## Life cycle -/

/-- The function `fuse_stat_reset`: `memset(stat, 0, sizeof(*stat))`. -/
def fuse_stat_reset (_stat : fuse_stat) : fuse_stat :=
  { info :=
      { tot_busy_t := 0, window_start_t := 0, busy_start_t := 0, is_busy_started := false,
        is_scaled_up := false, load := 0, load_high_cnt := 0, idle_cnt := 0 }
    delayed_work := none
    is_enabled := false
    is_primary := false
    freq_request := 0
    ratelimit := { interval := 0, burst := 0 }
    delay_ms := 0
    load_scale_up_thre := 0
    load_scale_down_thre := 0
    load_warn_thre := 0
    debug := false }

/-- The function `fuse_stat_init`; `HZ` is the tick rate of the kernel. -/
def fuse_stat_init (HZ : Nat) (fc : fuse_stat) : fuse_stat :=
  let stat := fuse_stat_reset fc
  { stat with
    delay_ms := FUSE_STAT_INTERVAL_MS
    delayed_work := none
    load_warn_thre := FUSE_STAT_LOAD_THRESHOLD
    load_scale_up_thre := FUSE_STAT_LOAD_SCALE_UP_THRESHOLD
    load_scale_down_thre := FUSE_STAT_LOAD_SCALE_DOWN_THRESHOLD
    ratelimit := { interval := FUSE_STAT_DEFAULT_RATELIMIT_INTERVAL HZ, burst := 5 }
    debug := false
    is_enabled := false
    is_primary := true }

/-- The function `fuse_stat_exit`; `cancel_delayed_work_sync` leaves no fire
pending. -/
def fuse_stat_exit (fc : fuse_stat) : fuse_stat :=
  { fc with freq_request := FUSE_SCALE_DOWN, is_enabled := false, delayed_work := none }

/-! ## Write handlers of the control files -/

/-- What a write handler gets from the helpers of the control file system,
which are not part of these files. -/
structure CtlWrite where
  /-- The return value of `fuse_conn_limit_write`. -/
  ret : Int
  /-- The value `fuse_conn_limit_write` stored through its `val` argument. -/
  val : Int
  /-- Whether `fuse_ctl_file_conn_get` found the connection. -/
  conn : Bool
deriving DecidableEq, Repr

def fuse_load_scale_up_thre_write (fc : fuse_stat) (w : CtlWrite) : fuse_stat × Int :=
  if w.ret > 0 then
    (if w.conn then { fc with load_scale_up_thre := w.val } else fc, w.ret)
  else (fc, w.ret)

def fuse_load_scale_down_thre_write (fc : fuse_stat) (w : CtlWrite) : fuse_stat × Int :=
  if w.ret > 0 then
    (if w.conn then { fc with load_scale_down_thre := w.val } else fc, w.ret)
  else (fc, w.ret)

def fuse_delay_ms_write (fc : fuse_stat) (w : CtlWrite) : fuse_stat × Int :=
  if w.ret > 0 then
    (if w.conn then { fc with delay_ms := w.val } else fc, w.ret)
  else (fc, w.ret)

def fuse_load_warn_thre_write (fc : fuse_stat) (w : CtlWrite) : fuse_stat × Int :=
  if w.ret > 0 then
    (if w.conn then { fc with load_warn_thre := w.val } else fc, w.ret)
  else (fc, w.ret)

def fuse_debug_write (fc : fuse_stat) (w : CtlWrite) : fuse_stat × Int :=
  if w.ret > 0 then
    (if w.conn then { fc with debug := decide (w.val ≠ 0) } else fc, w.ret)
  else (fc, w.ret)

def fuse_is_enabled_write (fc : fuse_stat) (w : CtlWrite) : fuse_stat × Int :=
  if w.ret > 0 then
    (if w.conn then { fc with is_enabled := decide (w.val ≠ 0) } else fc, w.ret)
  else (fc, w.ret)

/-! ## Runs of the engine -/

/-- One call into the engine. -/
inductive Event where
  | start_busy (h : Host)
  | update_busy (h : Host)
  /-- The work queue fires the work item, if a fire is pending. -/
  | work (h : Host)
  | load_scale_up_thre_write (w : CtlWrite)
  | load_scale_down_thre_write (w : CtlWrite)
  | delay_ms_write (w : CtlWrite)
  | load_warn_thre_write (w : CtlWrite)
  | debug_write (w : CtlWrite)
  | is_enabled_write (w : CtlWrite)
deriving DecidableEq, Repr

/-- The effect of one call; `none` when the work item faults. -/
def step (K : Kernel) (fc : fuse_stat) : Event → Option TickResult
  | .start_busy h => some { stat := fuse_start_busy fc h, warned := false }
  | .update_busy h => some { stat := fuse_update_busy K fc h, warned := false }
  | .work h => run_delayed_work K fc h
  | .load_scale_up_thre_write w =>
      some { stat := (fuse_load_scale_up_thre_write fc w).1, warned := false }
  | .load_scale_down_thre_write w =>
      some { stat := (fuse_load_scale_down_thre_write fc w).1, warned := false }
  | .delay_ms_write w => some { stat := (fuse_delay_ms_write fc w).1, warned := false }
  | .load_warn_thre_write w => some { stat := (fuse_load_warn_thre_write fc w).1, warned := false }
  | .debug_write w => some { stat := (fuse_debug_write fc w).1, warned := false }
  | .is_enabled_write w => some { stat := (fuse_is_enabled_write fc w).1, warned := false }

/-- The state after a sequence of calls; `none` when a run of the work item
faults on the way. -/
def run (K : Kernel) (fc : fuse_stat) : List Event → Option fuse_stat
  | [] => some fc
  | ev :: evs =>
    match step K fc ev with
    | none => none
    | some r => run K r.stat evs

/-- Number of warnings emitted along a sequence of calls, up to its end or to
the first fault. -/
def warnings (K : Kernel) (fc : fuse_stat) : List Event → Nat
  | [] => 0
  | ev :: evs =>
    match step K fc ev with
    | none => 0
    | some r => (if r.warned then 1 else 0) + warnings K r.stat evs

/-- Whether a call is a fire of the work item. -/
def Event.is_work : Event → Bool
  | .work _ => true
  | _ => false

/-- Number of fires of the work item in a sequence of calls. -/
def ticks (evs : List Event) : Nat := (evs.filter Event.is_work).length

/-- The state `fuse_start_busy` leaves after a sequence of calls. -/
def start_busy_calls (fc : fuse_stat) (hs : List Host) : fuse_stat :=
  hs.foldl fuse_start_busy fc

/-- The state a fire of the work item leaves; the state itself when the run
faults. -/
def work_state (K : Kernel) (fc : fuse_stat) (h : Host) : fuse_stat :=
  match run_delayed_work K fc h with
  | some r => r.stat
  | none => fc

/-- A run of the work item on `fc` with inputs `h` reaches the decision step:
the engine is enabled, the window is set and its length is not zero. -/
def reaches_decision (K : Kernel) (fc : fuse_stat) (h : Host) : Prop :=
  fc.is_enabled = true ∧ fc.info.window_start_t ≠ 0 ∧ 0 < total_time K fc.info h

instance (K : Kernel) (fc : fuse_stat) (h : Host) : Decidable (reaches_decision K fc h) := by
  unfold reaches_decision; infer_instance

/-- A run of the work item on `fc` with inputs `h` is a zero-load idle tick:
it reaches the decision step, computes a load of zero and the busy snapshot
is false. -/
def idle_tick (K : Kernel) (fc : fuse_stat) (h : Host) : Prop :=
  reaches_decision K fc h ∧ window_load K fc.info h = 0 ∧ fuse_is_busy h = false

instance (K : Kernel) (fc : fuse_stat) (h : Host) : Decidable (idle_tick K fc h) := by
  unfold idle_tick; infer_instance

/-! ## A concrete kernel, for evaluation -/

/-- The unit conversions of a kernel with `HZ = 250`: a jiffy is 4000
microseconds (`jiffies_to_usecs` returns an `unsigned int`), `ktime_to_us`
divides nanoseconds by 1000 rounding towards zero, `msecs_to_jiffies`
rounds up. -/
def kernel_hz250 : Kernel :=
  { jiffies_to_usecs := fun j => (4000 * j) % 2 ^ 32
    ktime_to_us := fun kt => Int.tdiv kt 1000
    msecs_to_jiffies := fun m => (m.toNat + 3) / 4 }

/-- A state to call `fuse_stat_init` on: all fields zero. -/
def zeroed : fuse_stat :=
  { info :=
      { tot_busy_t := 0, window_start_t := 0, busy_start_t := 0, is_busy_started := false,
        is_scaled_up := false, load := 0, load_high_cnt := 0, idle_cnt := 0 }
    delayed_work := none
    is_enabled := false
    is_primary := false
    freq_request := 0
    ratelimit := { interval := 0, burst := 0 }
    delay_ms := 0
    load_scale_up_thre := 0
    load_scale_down_thre := 0
    load_warn_thre := 0
    debug := false }

/-- Inputs of a call at `jiffies = j`, `ktime_get() = kt`, with the given
busy predicate, no background work and a granting rate limiter. -/
def host_at (j : Nat) (kt : Int) (busy : Bool) : Host :=
  { iq_pending_empty := !busy, jiffies := j, ktime := kt, num_background := 0,
    congestion_threshold := 9, ratelimit_grant := true, load_uninit := 0 }

/-- A successful write of `v` through a control file. -/
def ctl_write (v : Int) : CtlWrite := { ret := 2, val := v, conn := true }

/-! ## Auxiliary definitions for the statements -/

/-- The signal the decision step and the congestion override leave. -/
def signal (stat : fuse_stat) (load : Int) (h : Host) : Int :=
  (congestion_override (decision stat load (fuse_is_busy h)) h).freq_request

/-- The state in which the decision step runs: the open busy interval folded
in and the load stored. -/
def sampled (K : Kernel) (fc : fuse_stat) (h : Host) : fuse_stat :=
  { fc with info := { fc.info with
      tot_busy_t := busy_time K fc.info h
      load := window_load K fc.info h } }

/-- The congestion override applies. -/
def congested (h : Host) : Prop := h.num_background > h.congestion_threshold

instance (h : Host) : Decidable (congested h) := by
  unfold congested; infer_instance

/-- The engine after `fuse_stat_init` on a kernel with `HZ = 250`. -/
def fresh : fuse_stat := fuse_stat_init 250 zeroed

/-- An enabled engine with a fire pending and a window opened at
`jiffies = 1000`, no busy time accounted and no busy interval open. -/
def scheduled_state : fuse_stat :=
  { fresh with
    is_enabled := true
    delayed_work := some 25
    info := { fresh.info with window_start_t := 1000 } }

/-- As `scheduled_state`, with a busy interval open since
`ktime_get() = 5000000000`. -/
def busy_state : fuse_stat :=
  { scheduled_state with
    info := { scheduled_state.info with busy_start_t := 5000000000, is_busy_started := true } }

/-- As `scheduled_state`, with 30000 microseconds of busy time accounted. -/
def partly_busy_state : fuse_stat :=
  { scheduled_state with info := { scheduled_state.info with tot_busy_t := 30000 } }

/-- The idle counter after the decision step of a run: raised on a zero-load
idle tick, unchanged otherwise. -/
def idle_cnt_decided (K : Kernel) (fc : fuse_stat) (h : Host) : Int :=
  if idle_tick K fc h then s32 (fc.info.idle_cnt + 1) else fc.info.idle_cnt

/-- The idle counter lies in `0 .. FUSE_STAT_IDLE_MAX - 1`. -/
def idle_cnt_in_range (fc : fuse_stat) : Prop :=
  0 ≤ fc.info.idle_cnt ∧ fc.info.idle_cnt < FUSE_STAT_IDLE_MAX

/-- A run from `fuse_stat_init`: enable, a busy edge at `jiffies = 1000`, the
end of the busy interval in the same instant, an idle tick one jiffy later
(load 0), a busy edge, a tick on a busy window (load 64), the end of the busy
interval, an idle tick (load 0), a busy edge and a tick on a busy window
(load 64), the end of the busy interval. -/
def interleaved_run : List Event :=
  [ .is_enabled_write (ctl_write 1),
    .start_busy (host_at 1000 5000000000 true),
    .update_busy (host_at 1000 5000000000 false),
    .work (host_at 1001 5004000000 false),
    .start_busy (host_at 1010 5040000000 true),
    .work (host_at 1026 5104000000 true),
    .update_busy (host_at 1026 5104000000 false),
    .work (host_at 1051 5204000000 false),
    .start_busy (host_at 1060 5240000000 true),
    .work (host_at 1076 5304000000 true),
    .update_busy (host_at 1076 5304000000 false) ]

/-- A run from `fuse_stat_init`: enable, a busy edge at `jiffies = 1000`,
disable, and the fire of the work item that the busy edge had armed. -/
def disable_run : List Event :=
  [ .is_enabled_write (ctl_write 1),
    .start_busy (host_at 1000 5000000000 true),
    .is_enabled_write (ctl_write 0),
    .work (host_at 1001 5004000000 true) ]

/-- The state `interleaved_run` reaches after its first five calls: one idle
tick behind it (`idle_cnt = 1`), a busy interval open. -/
def after_first_idle : fuse_stat :=
  { scheduled_state with
    info := { scheduled_state.info with
      window_start_t := 1001, busy_start_t := 5040000000, is_busy_started := true,
      idle_cnt := 1 }
    freq_request := FUSE_SCALE_DOWN }

/-- How far the high-load streak has got towards the five ticks the alert
needs, capped at four. -/
def streak_credit (c : Int) : Nat := (min 4 (max 0 (s32 c))).toNat

/-- The calls of one window of 25 jiffies that starts at tick number `k`
with the work item finding the connection busy, the busy interval ending 95
milliseconds later. -/
def high_load_window (k : Nat) : List Event :=
  [ .work (host_at (1025 + 25 * k) (5100000000 + 100000000 * k) true),
    .update_busy (host_at (1048 + 25 * k) (5195000000 + 100000000 * k) false) ]

/-- Twenty consecutive windows of `high_load_window`: from `high_load_state`
every tick computes load 95. -/
def high_load_run : List Event :=
  (List.range 20).flatMap high_load_window

/-- The state `high_load_run` starts from: `busy_state` with
`load_warn_thre = 80` and 95 milliseconds of the open window busy. -/
def high_load_state : fuse_stat :=
  { scheduled_state with
    load_warn_thre := 80
    info := { scheduled_state.info with tot_busy_t := 95000 } }

/-! ## The control files: transport, read handlers and registration -/

/-- Conversion to `unsigned` (32 bit). -/
def u32 (x : Int) : Nat := (x % 2 ^ 32).toNat

/-- The error number `EINVAL`. -/
def EINVAL : Int := 22

/-- A write as it arrives at a write handler. -/
structure WriteReq where
  /-- The number of bytes written, `count`. -/
  count : Nat
  /-- The number the written text holds. -/
  value : Nat
  /-- Whether `fuse_ctl_file_conn_get` finds the connection. -/
  conn : Bool
  /-- The indeterminate content of the local `int val` of the handler. -/
  val_uninit : Int
deriving DecidableEq, Repr

/-- Modelled from the spec: the helper `fuse_conn_limit_write` of the control
file system is declared in `fuse_stat.h` but its body is not part of these
files.  The spec: "Writes outside the declared range are rejected; the
stored value is unchanged" and "caller informed of failure".  A value within
the limit is stored through `val` and the byte count is returned; a value
above it leaves `val` alone and returns `-EINVAL`. -/
def fuse_conn_limit_write (req : WriteReq) (global_limit : Nat) : CtlWrite :=
  if req.value ≤ global_limit then
    { ret := req.count, val := req.value, conn := req.conn }
  else
    { ret := -EINVAL, val := req.val_uninit, conn := req.conn }

/-- Modelled from the spec: the helper `fuse_conn_limit_read` is not part of
these files.  The spec: "Reads return the current value; the transport itself
(text encoding, file semantics) is outside this core's scope": the reader
gets the number passed as `val`. -/
def fuse_conn_limit_read (val : Nat) : Nat := val

/-! The read handlers; `none` is the empty read of a connection that is
gone. -/

def fuse_stat_freq_request_read (fc : fuse_stat) (conn : Bool) : Option Nat :=
  if !conn then none else some (fuse_conn_limit_read (u32 fc.freq_request))

def fuse_stat_load_read (fc : fuse_stat) (conn : Bool) : Option Nat :=
  if !conn then none else some (fuse_conn_limit_read (u32 fc.info.load))

def fuse_is_primary_read (fc : fuse_stat) (conn : Bool) : Option Nat :=
  if !conn then none else some (fuse_conn_limit_read (if fc.is_primary then 1 else 0))

def fuse_load_scale_up_thre_read (fc : fuse_stat) (conn : Bool) : Option Nat :=
  if !conn then none else some (fuse_conn_limit_read (u32 fc.load_scale_up_thre))

def fuse_load_scale_down_thre_read (fc : fuse_stat) (conn : Bool) : Option Nat :=
  if !conn then none else some (fuse_conn_limit_read (u32 fc.load_scale_down_thre))

def fuse_delay_ms_read (fc : fuse_stat) (conn : Bool) : Option Nat :=
  if !conn then none else some (fuse_conn_limit_read (u32 fc.delay_ms))

def fuse_load_warn_thre_read (fc : fuse_stat) (conn : Bool) : Option Nat :=
  if !conn then none else some (fuse_conn_limit_read (u32 fc.load_warn_thre))

def fuse_debug_read (fc : fuse_stat) (conn : Bool) : Option Nat :=
  if !conn then none else some (fuse_conn_limit_read (if fc.debug then 1 else 0))

def fuse_is_enabled_read (fc : fuse_stat) (conn : Bool) : Option Nat :=
  if !conn then none else some (fuse_conn_limit_read (if fc.is_enabled then 1 else 0))

/-- The writable knobs. -/
inductive Knob where
  | load_scale_up_thre
  | load_scale_down_thre
  | load_warn_thre
  | delay_ms
  | debug
  | is_enabled
deriving DecidableEq, Repr

/-- The write handler of a knob, with the call of `fuse_conn_limit_write`
that opens it and the limit it passes there (lines 91, 134, 220, 177, 263
and 306). -/
def Knob.write (k : Knob) (fc : fuse_stat) (req : WriteReq) : fuse_stat × Int :=
  match k with
  | .load_scale_up_thre => fuse_load_scale_up_thre_write fc (fuse_conn_limit_write req 100)
  | .load_scale_down_thre => fuse_load_scale_down_thre_write fc (fuse_conn_limit_write req 100)
  | .load_warn_thre => fuse_load_warn_thre_write fc (fuse_conn_limit_write req 100)
  | .delay_ms => fuse_delay_ms_write fc (fuse_conn_limit_write req 1000)
  | .debug => fuse_debug_write fc (fuse_conn_limit_write req 1)
  | .is_enabled => fuse_is_enabled_write fc (fuse_conn_limit_write req 1)

/-- The read handler of a knob. -/
def Knob.read (k : Knob) (fc : fuse_stat) (conn : Bool) : Option Nat :=
  match k with
  | .load_scale_up_thre => fuse_load_scale_up_thre_read fc conn
  | .load_scale_down_thre => fuse_load_scale_down_thre_read fc conn
  | .load_warn_thre => fuse_load_warn_thre_read fc conn
  | .delay_ms => fuse_delay_ms_read fc conn
  | .debug => fuse_debug_read fc conn
  | .is_enabled => fuse_is_enabled_read fc conn

/-- The limit of a knob in the table of the external interface of the
spec. -/
def Knob.limit : Knob → Nat
  | .load_scale_up_thre => 100
  | .load_scale_down_thre => 100
  | .load_warn_thre => 100
  | .delay_ms => 1000
  | .debug => 1
  | .is_enabled => 1

/-- The files `fuse_stat_ctl_add_conn` registers. -/
inductive CtlFile where
  | freq_request
  | load
  | is_primary
  | load_scale_up_thre
  | load_scale_down_thre
  | delay_ms
  | load_warn_thre
  | is_enabled
  | debug
deriving DecidableEq, Repr

/-- The mode flags that occur in `fuse_stat_ctl_add_conn`; a mode is the set
of flags or-ed together. -/
inductive ModeFlag where
  | S_IFREG
  | S_IRUGO
  | S_IWUGO
deriving DecidableEq, Repr

/-- The `.read` and `.write` members of a `struct file_operations`: which
file's handler is installed, if any. -/
structure file_operations where
  read : Option CtlFile
  write : Option CtlFile
deriving DecidableEq, Repr

def fuse_conn_freq_request_ops : file_operations :=
  { read := some .freq_request, write := none }

def fuse_conn_load_ops : file_operations :=
  { read := some .load, write := none }

def fuse_conn_is_primary_ops : file_operations :=
  { read := some .is_primary, write := none }

def fuse_conn_load_scale_up_thre_ops : file_operations :=
  { read := some .load_scale_up_thre, write := some .load_scale_up_thre }

def fuse_conn_load_scale_down_thre_ops : file_operations :=
  { read := some .load_scale_down_thre, write := some .load_scale_down_thre }

def fuse_conn_delay_ms_ops : file_operations :=
  { read := some .delay_ms, write := some .delay_ms }

def fuse_conn_load_warn_thre_ops : file_operations :=
  { read := some .load_warn_thre, write := some .load_warn_thre }

def fuse_conn_debug_ops : file_operations :=
  { read := some .debug, write := some .debug }

def fuse_conn_is_enabled_ops : file_operations :=
  { read := some .is_enabled, write := some .is_enabled }

/-- One call of `fuse_ctl_add_file_dentry`: the file, its mode and its
operations. -/
structure ctl_entry where
  file : CtlFile
  mode : List ModeFlag
  fop : file_operations
deriving DecidableEq, Repr

/-- The function `fuse_stat_ctl_add_conn`: the files it registers, in
order. -/
def fuse_stat_ctl_add_conn : List ctl_entry :=
  [ { file := .freq_request, mode := [.S_IFREG, .S_IRUGO], fop := fuse_conn_freq_request_ops },
    { file := .load, mode := [.S_IFREG, .S_IRUGO], fop := fuse_conn_load_ops },
    { file := .is_primary, mode := [.S_IFREG, .S_IRUGO], fop := fuse_conn_is_primary_ops },
    { file := .load_scale_up_thre, mode := [.S_IFREG, .S_IRUGO],
      fop := fuse_conn_load_scale_up_thre_ops },
    { file := .load_scale_down_thre, mode := [.S_IFREG, .S_IRUGO, .S_IWUGO],
      fop := fuse_conn_load_scale_down_thre_ops },
    { file := .delay_ms, mode := [.S_IFREG, .S_IRUGO, .S_IWUGO], fop := fuse_conn_delay_ms_ops },
    { file := .load_warn_thre, mode := [.S_IFREG, .S_IRUGO, .S_IWUGO],
      fop := fuse_conn_load_warn_thre_ops },
    { file := .is_enabled, mode := [.S_IFREG, .S_IRUGO, .S_IWUGO],
      fop := fuse_conn_is_enabled_ops },
    { file := .debug, mode := [.S_IFREG, .S_IRUGO, .S_IWUGO], fop := fuse_conn_debug_ops } ]

/-- The entry of a file in the registered table. -/
def ctl_lookup (f : CtlFile) : Option ctl_entry :=
  fuse_stat_ctl_add_conn.find? (fun e => decide (e.file = f))

/-- A file is registered read-only: readable mode, a read handler, no write
handler and no write permission. -/
def registered_read_only (f : CtlFile) : Bool :=
  match ctl_lookup f with
  | none => false
  | some e =>
    e.mode.contains .S_IRUGO && e.fop.read == some f && e.fop.write == none &&
      !e.mode.contains .S_IWUGO

/-- A file is registered read/write: read and write handlers of its own and
both permissions in its mode. -/
def registered_read_write (f : CtlFile) : Bool :=
  match ctl_lookup f with
  | none => false
  | some e =>
    e.mode.contains .S_IRUGO && e.fop.read == some f && e.fop.write == some f &&
      e.mode.contains .S_IWUGO

/-- A write of the number `v` in three bytes on a live connection. -/
def write_req (v : Nat) : WriteReq := { count := 3, value := v, conn := true, val_uninit := 0 }

/-- A call of one of the three entry points of the engine proper:
`fuse_start_busy`, `fuse_update_busy` or a fire of the work item. -/
def Event.is_engine_call : Event → Bool
  | .start_busy _ => true
  | .update_busy _ => true
  | .work _ => true
  | _ => false

/-- The state without what belongs to the alert path: `load_warn_thre`,
`load_high_cnt`, `debug` and the rate limiter are blanked. -/
def control_view (fc : fuse_stat) : fuse_stat :=
  { fc with
    load_warn_thre := 0
    debug := false
    ratelimit := { interval := 0, burst := 0 }
    info := { fc.info with load_high_cnt := 0 } }

/-- The inputs of a call without what only the alert path and the diagnostic
record read: the answer of the rate limiter and the content of the
unassigned local `load` are blanked. -/
def control_inputs (h : Host) : Host :=
  { h with ratelimit_grant := false, load_uninit := 0 }

/-- The busy time of the window in the words of the spec, as an exact
integer: `tot_busy_t`, plus `now - busy_start_t` in microseconds when a busy
interval is open. -/
def spec_busy (K : Kernel) (info : fuse_stat_info) (h : Host) : Int :=
  if info.is_busy_started then
    info.tot_busy_t + K.ktime_to_us (h.ktime - info.busy_start_t)
  else info.tot_busy_t

/-- The load in the words of the spec: `floor(busy * 100 / elapsed)`, as an
exact integer. -/
def spec_load (K : Kernel) (info : fuse_stat_info) (h : Host) : Int :=
  spec_busy K info h * 100 / (total_time K info h : Int)

/-- The unit conversions when the window and the busy timestamps are kept in
one unit: both conversions are the identity. -/
def one_unit (K : Kernel) : Prop :=
  (∀ j, K.jiffies_to_usecs j = j) ∧ (∀ t, K.ktime_to_us t = t)

/-- The inputs of a call that reads the clock. -/
def Event.host : Event → Option Host
  | .start_busy h => some h
  | .update_busy h => some h
  | .work h => some h
  | _ => none

/-- A bound on the clock readings that keeps `busy_time * 100` within an
`unsigned long`. -/
def clock_bound : Nat := 2 ^ 56

/-- The calls of a run read one non-decreasing clock: in every call
`jiffies` and `ktime_get()` give the same reading, not before the reading
`t` of the call before it and below `clock_bound`. -/
def one_clock (t : Nat) : List Event → Prop
  | [] => True
  | ev :: evs =>
    match ev.host with
    | none => one_clock t evs
    | some h =>
      t ≤ h.jiffies ∧ h.jiffies < clock_bound ∧ h.ktime = (h.jiffies : Int) ∧
        one_clock h.jiffies evs

/-- The last clock reading of a run that starts at reading `t`. -/
def clock_after (t : Nat) : List Event → Nat
  | [] => t
  | ev :: evs =>
    match ev.host with
    | none => clock_after t evs
    | some h => clock_after h.jiffies evs

/-- At clock reading `t` the busy time accounted for the window fits in the
window: the window did not start after `t`, and when it is set, an open busy
interval started within it, not after `t`, with the busy time accounted
before it fitting between the two starts, and with no interval open the busy
time accounted fits between the start of the window and `t`. -/
def busy_within_window (t : Nat) (s : fuse_stat) : Prop :=
  s.info.window_start_t ≤ t ∧
  (s.info.window_start_t ≠ 0 →
    (s.info.is_busy_started = true →
      (s.info.window_start_t : Int) ≤ s.info.busy_start_t ∧ s.info.busy_start_t ≤ (t : Int) ∧
        (s.info.tot_busy_t : Int) + s.info.window_start_t ≤ s.info.busy_start_t) ∧
    (s.info.is_busy_started = false → s.info.tot_busy_t + s.info.window_start_t ≤ t))

/-- A kernel that keeps every timestamp in microseconds. -/
def kernel_usec : Kernel :=
  { jiffies_to_usecs := fun j => j
    ktime_to_us := fun kt => kt
    msecs_to_jiffies := fun m => m.toNat * 1000 }

/-- Inputs of a call at clock reading `t` microseconds. -/
def host_usec (t : Nat) (busy : Bool) : Host := host_at t t busy

/-- A run on one clock: enable, a busy edge at 1000 microseconds, the first
tick at 1500, the end of the busy interval at 61500. -/
def one_clock_run : List Event :=
  [ .is_enabled_write (ctl_write 1),
    .start_busy (host_usec 1000 true),
    .work (host_usec 1500 true),
    .update_busy (host_usec 61500 false) ]

/-- The loop of `s` is stalled on the window of `ref`: nothing is pending,
the window is still the set window of `ref`, and the signal and the load are
those of `ref`. -/
def stalled (ref s : fuse_stat) : Prop :=
  s.delayed_work = none ∧
    s.info.window_start_t = ref.info.window_start_t ∧
    s.freq_request = ref.freq_request ∧
    s.info.load = ref.info.load

/-- The state after a write to `is_enabled`. -/
def is_enabled_written (s : fuse_stat) (w : CtlWrite) : fuse_stat :=
  (fuse_is_enabled_write s w).1

/-! # Theorems -/

/-! ## The work item, part by part -/

theorem continuation_freq_request (K : Kernel) (stat : fuse_stat) :
    (continuation K stat).freq_request = stat.freq_request := by
  unfold continuation fuse_stat_schedule_work
  split <;> rfl

theorem alert_check_freq_request (stat : fuse_stat) (load : Int) (h : Host) :
    (alert_check stat load h).1.freq_request = stat.freq_request := by
  unfold alert_check
  dsimp only
  split_ifs <;> rfl

theorem alert_check_idle_cnt (stat : fuse_stat) (load : Int) (h : Host) :
    (alert_check stat load h).1.info.idle_cnt = stat.info.idle_cnt := by
  unfold alert_check
  dsimp only
  split_ifs <;> rfl

theorem alert_check_window_start_t (stat : fuse_stat) (load : Int) (h : Host) :
    (alert_check stat load h).1.info.window_start_t = stat.info.window_start_t := by
  unfold alert_check
  dsimp only
  split_ifs <;> rfl

theorem alert_check_delayed_work (stat : fuse_stat) (load : Int) (h : Host) :
    (alert_check stat load h).1.delayed_work = stat.delayed_work := by
  unfold alert_check
  dsimp only
  split_ifs <;> rfl

theorem alert_check_delay_ms (stat : fuse_stat) (load : Int) (h : Host) :
    (alert_check stat load h).1.delay_ms = stat.delay_ms := by
  unfold alert_check
  dsimp only
  split_ifs <;> rfl

/-- A run that reaches the decision step does not fault, and its result is
the composition of the parts of the function. -/
theorem work_of_reaches_decision (K : Kernel) (fc : fuse_stat) (h : Host)
    (hd : reaches_decision K fc h) :
    fuse_stat_get_status_work K fc h =
      some
        { stat := continuation K (alert_check (start_window (congestion_override
            (decision (sampled K fc h) (window_load K fc.info h) (fuse_is_busy h)) h) h
            (fuse_is_busy h)) (window_load K fc.info h) h).1
          warned := (alert_check (start_window (congestion_override
            (decision (sampled K fc h) (window_load K fc.info h) (fuse_is_busy h)) h) h
            (fuse_is_busy h)) (window_load K fc.info h) h).2 } := by
  obtain ⟨hen, hw, ht⟩ := hd
  have ht0 : total_time K fc.info h ≠ 0 := Nat.pos_iff_ne_zero.mp ht
  simp [fuse_stat_get_status_work, fuse_is_stat_supported, hen, sample_window, hw, ht0, sampled]

/-- The signal as a cascade: the congestion override first, then the four
rules of the decision in their order. -/
theorem signal_eq (stat : fuse_stat) (load : Int) (h : Host) :
    signal stat load h =
      if congested h then FUSE_SCALE_UP
      else if load = 0 ∧ fuse_is_busy h = false then FUSE_SCALE_DOWN
      else if load > stat.load_scale_up_thre then FUSE_SCALE_UP
      else if load < stat.load_scale_down_thre then FUSE_SCALE_DOWN
      else FUSE_SCALE_NORMAL := by
  unfold signal congestion_override decision congested
  by_cases hc : h.num_background > h.congestion_threshold
  · simp [hc]
  · by_cases hl : load = 0 <;> cases hb : fuse_is_busy h <;> simp [hc, hl, hb] <;>
      split_ifs <;> rfl

/-- A run that reaches the decision step returns, and the signal it leaves is
`signal` on the computed load. -/
theorem work_freq_request (K : Kernel) (fc : fuse_stat) (h : Host)
    (hd : reaches_decision K fc h) :
    ∃ r, fuse_stat_get_status_work K fc h = some r ∧
      r.stat.freq_request = signal (sampled K fc h) (window_load K fc.info h) h := by
  refine ⟨_, work_of_reaches_decision K fc h hd, ?_⟩
  simp only [continuation_freq_request, alert_check_freq_request]
  rfl

/-! ## The scale signal -/

/-- C1. A run of the work item that reaches the decision step with a computed
load above `load_scale_up_thre`, without congestion and not in the idle case
(load zero and busy snapshot false), returns and leaves
`freq_request = FUSE_SCALE_UP`. -/
theorem scale_up_above_threshold (K : Kernel) (fc : fuse_stat) (h : Host)
    (hd : reaches_decision K fc h)
    (hup : window_load K fc.info h > fc.load_scale_up_thre)
    (hc : h.num_background ≤ h.congestion_threshold)
    (hi : ¬ (window_load K fc.info h = 0 ∧ fuse_is_busy h = false)) :
    ∃ r, fuse_stat_get_status_work K fc h = some r ∧
      r.stat.freq_request = FUSE_SCALE_UP := by
  obtain ⟨r, hr, hs⟩ := work_freq_request K fc h hd
  refine ⟨r, hr, ?_⟩
  have hc2 : ¬ congested h := by unfold congested; omega
  have hup2 : window_load K fc.info h > (sampled K fc h).load_scale_up_thre := hup
  rw [hs, signal_eq, if_neg hc2, if_neg hi, if_pos hup2]

/-- Witness of C1: a window of 25 jiffies, busy throughout, gives load 100
against the default threshold 60. -/
theorem scale_up_above_threshold_witness :
    ∃ r, fuse_stat_get_status_work kernel_hz250 busy_state (host_at 1025 5100000000 true) = some r ∧
      r.stat.freq_request = FUSE_SCALE_UP :=
  scale_up_above_threshold kernel_hz250 busy_state (host_at 1025 5100000000 true)
    (by decide) (by decide) (by decide) (by decide)

/-- C2, as stated, fails: with `load_scale_up_thre = 10` and
`load_scale_down_thre = 50`, both in the range 0..100, a run without
congestion computes load 30, below the scale-down threshold, and leaves
`FUSE_SCALE_UP`, not `FUSE_SCALE_DOWN`. -/
theorem scale_down_below_threshold_counterexample :
    reaches_decision kernel_hz250
        { partly_busy_state with load_scale_up_thre := 10, load_scale_down_thre := 50 }
        (host_at 1025 5100000000 false) ∧
      ¬ congested (host_at 1025 5100000000 false) ∧
      window_load kernel_hz250 partly_busy_state.info (host_at 1025 5100000000 false) = 30 ∧
      (fuse_stat_get_status_work kernel_hz250
        { partly_busy_state with load_scale_up_thre := 10, load_scale_down_thre := 50 }
        (host_at 1025 5100000000 false)).map (fun r => r.stat.freq_request) = some FUSE_SCALE_UP ∧
      FUSE_SCALE_UP ≠ FUSE_SCALE_DOWN := by
  decide

/-- C2, amended. A run of the work item that reaches the decision step without
congestion, with a computed load below `load_scale_down_thre` and not above
`load_scale_up_thre`, returns and leaves `freq_request = FUSE_SCALE_DOWN`,
whatever the two thresholds are. -/
theorem scale_down_below_threshold (K : Kernel) (fc : fuse_stat) (h : Host)
    (hd : reaches_decision K fc h)
    (hc : h.num_background ≤ h.congestion_threshold)
    (hdown : window_load K fc.info h < fc.load_scale_down_thre)
    (hup : window_load K fc.info h ≤ fc.load_scale_up_thre) :
    ∃ r, fuse_stat_get_status_work K fc h = some r ∧
      r.stat.freq_request = FUSE_SCALE_DOWN := by
  obtain ⟨r, hr, hs⟩ := work_freq_request K fc h hd
  refine ⟨r, hr, ?_⟩
  have hc2 : ¬ congested h := by unfold congested; omega
  have hup2 : ¬ window_load K fc.info h > (sampled K fc h).load_scale_up_thre := not_lt.mpr hup
  have hdown2 : window_load K fc.info h < (sampled K fc h).load_scale_down_thre := hdown
  rw [hs, signal_eq, if_neg hc2]
  split_ifs
  · rfl
  · rfl

/-- Witness of the amended C2: load 30 against the thresholds 60 and 50. -/
theorem scale_down_below_threshold_witness :
    ∃ r, fuse_stat_get_status_work kernel_hz250
        { partly_busy_state with load_scale_down_thre := 50 }
        (host_at 1025 5100000000 false) = some r ∧
      r.stat.freq_request = FUSE_SCALE_DOWN :=
  scale_down_below_threshold kernel_hz250 { partly_busy_state with load_scale_down_thre := 50 }
    (host_at 1025 5100000000 false) (by decide) (by decide) (by decide) (by decide)

/-- C3. Congestion override: a run of the work item that reaches the decision
step while `num_background > congestion_threshold` returns and leaves
`freq_request = FUSE_SCALE_UP`, whatever the load, the busy snapshot and the
thresholds. -/
theorem congestion_forces_scale_up (K : Kernel) (fc : fuse_stat) (h : Host)
    (hd : reaches_decision K fc h)
    (hc : h.num_background > h.congestion_threshold) :
    ∃ r, fuse_stat_get_status_work K fc h = some r ∧
      r.stat.freq_request = FUSE_SCALE_UP := by
  obtain ⟨r, hr, hs⟩ := work_freq_request K fc h hd
  refine ⟨r, hr, ?_⟩
  have hc2 : congested h := hc
  rw [hs, signal_eq, if_pos hc2]

/-- Witness of C3: an idle window (load zero, not busy) with 10 background
requests against a congestion threshold of 9. -/
theorem congestion_forces_scale_up_witness :
    ∃ r, fuse_stat_get_status_work kernel_hz250 scheduled_state
        { host_at 1025 5100000000 false with num_background := 10 } = some r ∧
      r.stat.freq_request = FUSE_SCALE_UP :=
  congestion_forces_scale_up kernel_hz250 scheduled_state
    { host_at 1025 5100000000 false with num_background := 10 } (by decide) (by decide)

theorem continuation_idle_cnt (K : Kernel) (stat : fuse_stat) :
    (continuation K stat).info.idle_cnt =
      if stat.info.idle_cnt < FUSE_STAT_IDLE_MAX then stat.info.idle_cnt else 0 := by
  unfold continuation fuse_stat_schedule_work
  split <;> rfl

theorem continuation_window_start_t (K : Kernel) (stat : fuse_stat) :
    (continuation K stat).info.window_start_t =
      if stat.info.idle_cnt < FUSE_STAT_IDLE_MAX then stat.info.window_start_t else 0 := by
  unfold continuation fuse_stat_schedule_work
  split <;> rfl

theorem continuation_delayed_work (K : Kernel) (stat : fuse_stat) :
    (continuation K stat).delayed_work =
      if stat.info.idle_cnt < FUSE_STAT_IDLE_MAX then
        schedule_delayed_work stat.delayed_work (K.msecs_to_jiffies stat.delay_ms)
      else stat.delayed_work := by
  unfold continuation fuse_stat_schedule_work
  split <;> rfl

theorem congestion_override_info (stat : fuse_stat) (h : Host) :
    (congestion_override stat h).info = stat.info := by
  unfold congestion_override
  split <;> rfl

theorem congestion_override_delayed_work (stat : fuse_stat) (h : Host) :
    (congestion_override stat h).delayed_work = stat.delayed_work := by
  unfold congestion_override
  split <;> rfl

theorem congestion_override_delay_ms (stat : fuse_stat) (h : Host) :
    (congestion_override stat h).delay_ms = stat.delay_ms := by
  unfold congestion_override
  split <;> rfl

theorem decision_idle_cnt (stat : fuse_stat) (load : Int) (is_busy : Bool) :
    (decision stat load is_busy).info.idle_cnt =
      if load = 0 ∧ is_busy = false then s32 (stat.info.idle_cnt + 1) else stat.info.idle_cnt := by
  unfold decision
  by_cases hl : load = 0 <;> cases is_busy <;> simp [hl] <;> split_ifs <;> rfl

theorem decision_delayed_work (stat : fuse_stat) (load : Int) (is_busy : Bool) :
    (decision stat load is_busy).delayed_work = stat.delayed_work := by
  unfold decision
  split_ifs <;> rfl

theorem decision_delay_ms (stat : fuse_stat) (load : Int) (is_busy : Bool) :
    (decision stat load is_busy).delay_ms = stat.delay_ms := by
  unfold decision
  split_ifs <;> rfl

theorem start_window_idle_cnt (stat : fuse_stat) (h : Host) (b : Bool) :
    (start_window stat h b).info.idle_cnt = stat.info.idle_cnt := rfl

theorem start_window_window_start_t (stat : fuse_stat) (h : Host) (b : Bool) :
    (start_window stat h b).info.window_start_t = h.jiffies := rfl

theorem start_window_delayed_work (stat : fuse_stat) (h : Host) (b : Bool) :
    (start_window stat h b).delayed_work = stat.delayed_work := rfl

theorem start_window_delay_ms (stat : fuse_stat) (h : Host) (b : Bool) :
    (start_window stat h b).delay_ms = stat.delay_ms := rfl

theorem continuation_is_enabled (K : Kernel) (stat : fuse_stat) :
    (continuation K stat).is_enabled = stat.is_enabled := by
  unfold continuation fuse_stat_schedule_work
  split <;> rfl

theorem alert_check_is_enabled (stat : fuse_stat) (load : Int) (h : Host) :
    (alert_check stat load h).1.is_enabled = stat.is_enabled := by
  unfold alert_check
  dsimp only
  split_ifs <;> rfl

theorem start_window_is_enabled (stat : fuse_stat) (h : Host) (b : Bool) :
    (start_window stat h b).is_enabled = stat.is_enabled := rfl

theorem congestion_override_is_enabled (stat : fuse_stat) (h : Host) :
    (congestion_override stat h).is_enabled = stat.is_enabled := by
  unfold congestion_override
  split <;> rfl

theorem decision_is_enabled (stat : fuse_stat) (load : Int) (is_busy : Bool) :
    (decision stat load is_busy).is_enabled = stat.is_enabled := by
  unfold decision
  split_ifs <;> rfl

/-- The idle counter, the window start and the pending fire after a run that
reaches the decision step. -/
theorem work_scheduling (K : Kernel) (fc : fuse_stat) (h : Host)
    (hd : reaches_decision K fc h) :
    ∃ r, fuse_stat_get_status_work K fc h = some r ∧
      r.stat.is_enabled = fc.is_enabled ∧
      r.stat.info.idle_cnt =
        (if (decision (sampled K fc h) (window_load K fc.info h) (fuse_is_busy h)).info.idle_cnt
            < FUSE_STAT_IDLE_MAX then
          (decision (sampled K fc h) (window_load K fc.info h) (fuse_is_busy h)).info.idle_cnt
        else 0) ∧
      r.stat.info.window_start_t =
        (if (decision (sampled K fc h) (window_load K fc.info h) (fuse_is_busy h)).info.idle_cnt
            < FUSE_STAT_IDLE_MAX then h.jiffies else 0) ∧
      r.stat.delayed_work =
        (if (decision (sampled K fc h) (window_load K fc.info h) (fuse_is_busy h)).info.idle_cnt
            < FUSE_STAT_IDLE_MAX then
          schedule_delayed_work fc.delayed_work (K.msecs_to_jiffies fc.delay_ms)
        else fc.delayed_work) := by
  refine ⟨_, work_of_reaches_decision K fc h hd, ?_, ?_, ?_, ?_⟩
  · simp only [continuation_is_enabled, alert_check_is_enabled, start_window_is_enabled,
      congestion_override_is_enabled, decision_is_enabled]
    rfl
  · simp only [continuation_idle_cnt, alert_check_idle_cnt, start_window_idle_cnt,
      congestion_override_info]
  · simp only [continuation_window_start_t, alert_check_idle_cnt, alert_check_window_start_t,
      start_window_idle_cnt, start_window_window_start_t, congestion_override_info]
  · simp only [continuation_delayed_work, alert_check_idle_cnt, alert_check_delayed_work,
      alert_check_delay_ms, start_window_idle_cnt, start_window_delayed_work,
      start_window_delay_ms, congestion_override_info, congestion_override_delayed_work,
      congestion_override_delay_ms, decision_delayed_work, decision_delay_ms]
    rfl

/-- A fire of the work item on a zero-load idle window: it returns, the
engine stays enabled, the idle counter goes up by one and, when it reaches
`FUSE_STAT_IDLE_MAX`, the loop stops with the window and the counter
cleared. -/
theorem fire_idle (K : Kernel) (fc : fuse_stat) (h : Host) (d : Nat)
    (hs : fc.delayed_work = some d) (hi : idle_tick K fc h) :
    ∃ r, run_delayed_work K fc h = some r ∧ work_state K fc h = r.stat ∧
      r.stat.is_enabled = true ∧
      r.stat.info.idle_cnt =
        (if s32 (fc.info.idle_cnt + 1) < 3 then s32 (fc.info.idle_cnt + 1) else 0) ∧
      r.stat.info.window_start_t = (if s32 (fc.info.idle_cnt + 1) < 3 then h.jiffies else 0) ∧
      r.stat.delayed_work =
        (if s32 (fc.info.idle_cnt + 1) < 3 then some (K.msecs_to_jiffies fc.delay_ms)
         else none) := by
  obtain ⟨hd, hl, hb⟩ := hi
  have hd2 : reaches_decision K { fc with delayed_work := none } h := hd
  obtain ⟨r, hr, he, hc, hw, hdw⟩ := work_scheduling K { fc with delayed_work := none } h hd2
  have hrun : run_delayed_work K fc h = some r := by
    unfold run_delayed_work
    rw [hs]
    exact hr
  have hcnt : (decision (sampled K { fc with delayed_work := none } h)
      (window_load K fc.info h) (fuse_is_busy h)).info.idle_cnt = s32 (fc.info.idle_cnt + 1) := by
    rw [decision_idle_cnt, if_pos ⟨hl, hb⟩]
    rfl
  dsimp only at hc hw hdw
  rw [hcnt] at hc hw hdw
  refine ⟨r, hrun, ?_, ?_, ?_, ?_, ?_⟩
  · unfold work_state
    rw [hrun]
  · rw [he]
    exact hd.1
  · exact hc
  · exact hw
  · rw [hdw]
    rfl

theorem s32_succ (c : Int) (hr : -2 ^ 31 ≤ c ∧ c < 2 ^ 31 - 1) : s32 (c + 1) = c + 1 := by
  unfold s32
  omega

/-! ## The idle case -/

/-- C4, as stated, fails in both of its parts.  From `idle_cnt = 2` a
zero-load idle tick leaves `idle_cnt = 0`, not 3 (and `FUSE_SCALE_DOWN`);
with 10 background requests against a congestion threshold of 9 a
zero-load idle tick leaves `FUSE_SCALE_UP`, not `FUSE_SCALE_DOWN` (and
`idle_cnt` raised from 0 to 1). -/
theorem idle_tick_counts_counterexample :
    (idle_tick kernel_hz250
        { scheduled_state with info := { scheduled_state.info with idle_cnt := 2 } }
        (host_at 1025 5100000000 false) ∧
      (fuse_stat_get_status_work kernel_hz250
        { scheduled_state with info := { scheduled_state.info with idle_cnt := 2 } }
        (host_at 1025 5100000000 false)).map
          (fun r => (r.stat.info.idle_cnt, r.stat.freq_request)) = some (0, FUSE_SCALE_DOWN)) ∧
    (idle_tick kernel_hz250 scheduled_state
        { host_at 1025 5100000000 false with num_background := 10 } ∧
      scheduled_state.info.idle_cnt = 0 ∧
      (fuse_stat_get_status_work kernel_hz250 scheduled_state
        { host_at 1025 5100000000 false with num_background := 10 }).map
          (fun r => (r.stat.info.idle_cnt, r.stat.freq_request)) = some (1, FUSE_SCALE_UP)) := by
  decide

/-- C4, amended. On a zero-load idle tick (the run reaches the decision step,
computes load zero and the busy snapshot is false), from every prior state
whose `idle_cnt` is an `int` other than `INT_MAX`: the run returns; the
decision step raises `idle_cnt` by exactly 1; after the run `idle_cnt` is the
old value plus 1 when that is below `FUSE_STAT_IDLE_MAX = 3`, and 0 otherwise
(the loop stops); `freq_request` is `FUSE_SCALE_DOWN` unless the congestion
override applies, and `FUSE_SCALE_UP` when it does. -/
theorem idle_tick_counts (K : Kernel) (fc : fuse_stat) (h : Host)
    (hi : idle_tick K fc h)
    (hr : -2 ^ 31 ≤ fc.info.idle_cnt ∧ fc.info.idle_cnt < 2 ^ 31 - 1) :
    ∃ r, fuse_stat_get_status_work K fc h = some r ∧
      (decision (sampled K fc h) (window_load K fc.info h) (fuse_is_busy h)).info.idle_cnt =
        fc.info.idle_cnt + 1 ∧
      r.stat.info.idle_cnt =
        (if fc.info.idle_cnt + 1 < FUSE_STAT_IDLE_MAX then fc.info.idle_cnt + 1 else 0) ∧
      r.stat.freq_request = (if congested h then FUSE_SCALE_UP else FUSE_SCALE_DOWN) := by
  obtain ⟨hd, hl, hb⟩ := hi
  obtain ⟨r, hr1, -, hc, -, -⟩ := work_scheduling K fc h hd
  obtain ⟨r2, hr2, hs⟩ := work_freq_request K fc h hd
  have hrr : r2 = r := Option.some.inj (hr2.symm.trans hr1)
  subst hrr
  have hcnt : (decision (sampled K fc h) (window_load K fc.info h) (fuse_is_busy h)).info.idle_cnt
      = fc.info.idle_cnt + 1 := by
    rw [decision_idle_cnt, if_pos ⟨hl, hb⟩]
    exact s32_succ _ hr
  refine ⟨r2, hr1, hcnt, ?_, ?_⟩
  · rw [hc, hcnt]
  · rw [hs, signal_eq]
    by_cases hcg : congested h
    · rw [if_pos hcg, if_pos hcg]
    · rw [if_neg hcg, if_neg hcg, if_pos ⟨hl, hb⟩]

/-- Witness of the amended C4: the first idle tick of a scheduled engine. -/
theorem idle_tick_counts_witness :
    ∃ r, fuse_stat_get_status_work kernel_hz250 scheduled_state
        (host_at 1025 5100000000 false) = some r ∧
      (decision (sampled kernel_hz250 scheduled_state (host_at 1025 5100000000 false))
        (window_load kernel_hz250 scheduled_state.info (host_at 1025 5100000000 false))
        (fuse_is_busy (host_at 1025 5100000000 false))).info.idle_cnt =
        scheduled_state.info.idle_cnt + 1 ∧
      r.stat.info.idle_cnt =
        (if scheduled_state.info.idle_cnt + 1 < FUSE_STAT_IDLE_MAX then
          scheduled_state.info.idle_cnt + 1 else 0) ∧
      r.stat.freq_request =
        (if congested (host_at 1025 5100000000 false) then FUSE_SCALE_UP else FUSE_SCALE_DOWN) :=
  idle_tick_counts kernel_hz250 scheduled_state (host_at 1025 5100000000 false)
    (by decide) (by decide)

/-! ## The window of length zero -/

/-- An enabled run on a set window whose length converts to zero microseconds
divides by zero. -/
theorem work_faults_on_empty_window (K : Kernel) (fc : fuse_stat) (h : Host)
    (hen : fc.is_enabled = true) (hw : fc.info.window_start_t ≠ 0)
    (ht : total_time K fc.info h = 0) :
    fuse_stat_get_status_work K fc h = none := by
  simp [fuse_stat_get_status_work, fuse_is_stat_supported, hen, sample_window, hw, ht]

/-- C5 fails on the code.  After `fuse_stat_init`, a write of 1 to
`is_enabled` and a `fuse_start_busy` at `jiffies = 1000`, the work item is
pending with delay zero and the window starts at 1000; when it runs within
the same jiffy the window has length zero and line 547 divides by zero: the
run faults instead of skipping the decision. -/
theorem zero_window_faults :
    (run kernel_hz250 fresh
        [.is_enabled_write (ctl_write 1), .start_busy (host_at 1000 5000000000 true)]).map
      (fun s => (s.is_enabled, s.delayed_work, s.info.window_start_t)) =
        some (true, some 0, 1000) ∧
    (run kernel_hz250 fresh
        [.is_enabled_write (ctl_write 1), .start_busy (host_at 1000 5000000000 true)]).map
      (fun s => total_time kernel_hz250 s.info (host_at 1000 5000000000 true)) = some 0 ∧
    run kernel_hz250 fresh
        [.is_enabled_write (ctl_write 1), .start_busy (host_at 1000 5000000000 true),
         .work (host_at 1000 5000000000 true)] = none := by
  decide

/-! ## Self-quiescence -/

/-- After a stop of the loop, `fuse_start_busy` with the busy predicate true
opens the window at the current `jiffies` and arms the loop with delay
zero. -/
theorem start_busy_arms (fc : fuse_stat) (h : Host)
    (hen : fc.is_enabled = true) (hb : fuse_is_busy h = true)
    (hw : fc.info.window_start_t = 0) (hdw : fc.delayed_work = none) :
    (fuse_start_busy fc h).info.window_start_t = h.jiffies ∧
      (fuse_start_busy fc h).delayed_work = some 0 ∧
      (fuse_start_busy fc h).info.is_busy_started = true ∧
      (fuse_start_busy fc h).info.busy_start_t = h.ktime := by
  simp [fuse_start_busy, fuse_is_stat_supported, hen, hb, hw, hdw, delayed_work_pending,
    schedule_delayed_work]

/-- C6. Self-quiescence: from an enabled state with a fire pending, the
window set and `idle_cnt = 0`, three consecutive fires of the work item that
are zero-load idle ticks all return; the first two reschedule; the third
does not, and leaves `window_start_t = 0` and `idle_cnt = 0`.  A following
`fuse_start_busy` with the busy predicate true (at a non-zero `jiffies`)
sets `window_start_t` to the current `jiffies` and schedules the loop,
with delay zero. -/
theorem self_quiescence (K : Kernel) (fc : fuse_stat) (h1 h2 h3 h4 : Host) (d : Nat)
    (hs : fc.delayed_work = some d)
    (h0 : fc.info.idle_cnt = 0)
    (i1 : idle_tick K fc h1)
    (i2 : idle_tick K (work_state K fc h1) h2)
    (i3 : idle_tick K (work_state K (work_state K fc h1) h2) h3)
    (hb : fuse_is_busy h4 = true) (hj : h4.jiffies ≠ 0) :
    ∃ r1 r2 r3,
      run_delayed_work K fc h1 = some r1 ∧
      delayed_work_pending r1.stat.delayed_work = true ∧
      run_delayed_work K r1.stat h2 = some r2 ∧
      delayed_work_pending r2.stat.delayed_work = true ∧
      run_delayed_work K r2.stat h3 = some r3 ∧
      delayed_work_pending r3.stat.delayed_work = false ∧
      r3.stat.info.window_start_t = 0 ∧
      r3.stat.info.idle_cnt = 0 ∧
      (fuse_start_busy r3.stat h4).info.window_start_t = h4.jiffies ∧
      (fuse_start_busy r3.stat h4).info.window_start_t ≠ 0 ∧
      (fuse_start_busy r3.stat h4).delayed_work = some 0 := by
  obtain ⟨r1, hr1, hw1, he1, hc1, -, hd1⟩ := fire_idle K fc h1 d hs i1
  rw [h0] at hc1 hd1
  have e1 : s32 (0 + 1) = 1 := by decide
  rw [e1] at hc1 hd1
  norm_num at hc1 hd1
  rw [hw1] at i2 i3
  obtain ⟨r2, hr2, hw2, he2, hc2, -, hd2⟩ := fire_idle K r1.stat h2 _ hd1 i2
  rw [hc1] at hc2 hd2
  have e2 : s32 (1 + 1) = 2 := by decide
  rw [e2] at hc2 hd2
  norm_num at hc2 hd2
  rw [hw2] at i3
  obtain ⟨r3, hr3, -, he3, hc3, hws3, hd3⟩ := fire_idle K r2.stat h3 _ hd2 i3
  rw [hc2] at hc3 hws3 hd3
  have e3 : s32 (2 + 1) = 3 := by decide
  rw [e3] at hc3 hws3 hd3
  norm_num at hc3 hws3 hd3
  obtain ⟨a1, a2, -, -⟩ := start_busy_arms r3.stat h4 he3 hb hws3 hd3
  refine ⟨r1, r2, r3, hr1, ?_, hr2, ?_, hr3, ?_, hws3, hc3, a1, ?_, a2⟩
  · rw [hd1]; rfl
  · rw [hd2]; rfl
  · rw [hd3]; rfl
  · rw [a1]; exact hj

/-- Witness of C6: three idle windows of 25 jiffies from `scheduled_state`,
then a busy edge. -/
theorem self_quiescence_witness :
    ∃ r1 r2 r3,
      run_delayed_work kernel_hz250 scheduled_state (host_at 1025 5100000000 false) = some r1 ∧
      delayed_work_pending r1.stat.delayed_work = true ∧
      run_delayed_work kernel_hz250 r1.stat (host_at 1050 5200000000 false) = some r2 ∧
      delayed_work_pending r2.stat.delayed_work = true ∧
      run_delayed_work kernel_hz250 r2.stat (host_at 1075 5300000000 false) = some r3 ∧
      delayed_work_pending r3.stat.delayed_work = false ∧
      r3.stat.info.window_start_t = 0 ∧
      r3.stat.info.idle_cnt = 0 ∧
      (fuse_start_busy r3.stat (host_at 1200 5800000000 true)).info.window_start_t =
        (host_at 1200 5800000000 true).jiffies ∧
      (fuse_start_busy r3.stat (host_at 1200 5800000000 true)).info.window_start_t ≠ 0 ∧
      (fuse_start_busy r3.stat (host_at 1200 5800000000 true)).delayed_work = some 0 :=
  self_quiescence kernel_hz250 scheduled_state (host_at 1025 5100000000 false)
    (host_at 1050 5200000000 false) (host_at 1075 5300000000 false)
    (host_at 1200 5800000000 true) 25 (by decide) (by decide) (by decide) (by decide)
    (by decide) (by decide) (by decide)

/-! ## Runs of the work item in general -/

theorem sample_window_frame (K : Kernel) (stat stat1 : fuse_stat) (h : Host) (b : Bool)
    (load : Int) (hs : sample_window K stat h b = some (stat1, load)) :
    stat1.info.load_high_cnt = stat.info.load_high_cnt ∧
      stat1.delayed_work = stat.delayed_work ∧
      stat1.delay_ms = stat.delay_ms ∧
      stat1.is_enabled = stat.is_enabled := by
  unfold sample_window at hs
  split_ifs at hs with hw ht
  · cases hs
    exact ⟨rfl, rfl, rfl, rfl⟩
  · cases hs
    refine ⟨?_, ?_, ?_, ?_⟩
    · rw [congestion_override_info]
      unfold decision
      split_ifs <;> rfl
    · rw [congestion_override_delayed_work, decision_delayed_work]
    · rw [congestion_override_delay_ms, decision_delay_ms]
    · rw [congestion_override_is_enabled, decision_is_enabled]

/-- The idle counter a returned sample leaves: raised on a zero-load idle
tick, unchanged otherwise. -/
theorem sample_window_idle_cnt (K : Kernel) (stat stat1 : fuse_stat) (h : Host)
    (load : Int) (hen : stat.is_enabled = true)
    (hs : sample_window K stat h (fuse_is_busy h) = some (stat1, load)) :
    stat1.info.idle_cnt = idle_cnt_decided K stat h := by
  unfold idle_cnt_decided
  unfold sample_window at hs
  split_ifs at hs with hw ht
  · cases hs
    have : ¬ idle_tick K stat h := fun hi => hi.1.2.1 hw
    rw [if_neg this]
  · cases hs
    rw [congestion_override_info, decision_idle_cnt]
    have hd : reaches_decision K stat h := ⟨hen, hw, Nat.pos_of_ne_zero ht⟩
    by_cases hi : window_load K stat.info h = 0 ∧ fuse_is_busy h = false
    · rw [if_pos hi, if_pos ⟨hd, hi⟩]
    · rw [if_neg hi, if_neg (fun hi2 => hi hi2.2)]

/-- An enabled run that returns is the composition of its parts. -/
theorem work_some (K : Kernel) (fc : fuse_stat) (h : Host) (r : TickResult)
    (hen : fc.is_enabled = true) (hr : fuse_stat_get_status_work K fc h = some r) :
    ∃ stat1 load, sample_window K fc h (fuse_is_busy h) = some (stat1, load) ∧
      r.stat = continuation K (alert_check (start_window stat1 h (fuse_is_busy h)) load h).1 ∧
      r.warned = (alert_check (start_window stat1 h (fuse_is_busy h)) load h).2 := by
  unfold fuse_stat_get_status_work at hr
  simp only [fuse_is_stat_supported, hen, Bool.not_true, Bool.false_eq_true, if_false] at hr
  cases hsw : sample_window K fc h (fuse_is_busy h) with
  | none => rw [hsw] at hr; cases hr
  | some p =>
    obtain ⟨stat1, load⟩ := p
    rw [hsw] at hr
    cases hr
    exact ⟨stat1, load, rfl, rfl, rfl⟩

/-- The idle counter and the pending fire after an enabled run that
returns. -/
theorem work_continuation (K : Kernel) (fc : fuse_stat) (h : Host) (r : TickResult)
    (hen : fc.is_enabled = true) (hr : fuse_stat_get_status_work K fc h = some r) :
    r.stat.info.idle_cnt =
        (if idle_cnt_decided K fc h < FUSE_STAT_IDLE_MAX then idle_cnt_decided K fc h else 0) ∧
      r.stat.delayed_work =
        (if idle_cnt_decided K fc h < FUSE_STAT_IDLE_MAX then
          schedule_delayed_work fc.delayed_work (K.msecs_to_jiffies fc.delay_ms)
        else fc.delayed_work) := by
  obtain ⟨stat1, load, hs, hst, -⟩ := work_some K fc h r hen hr
  have hc := sample_window_idle_cnt K fc stat1 h load hen hs
  obtain ⟨-, hdw, hdm, -⟩ := sample_window_frame K fc stat1 h _ load hs
  rw [hst]
  constructor
  · rw [continuation_idle_cnt, alert_check_idle_cnt, start_window_idle_cnt, hc]
  · rw [continuation_delayed_work, alert_check_idle_cnt, start_window_idle_cnt, hc,
      alert_check_delayed_work, start_window_delayed_work, alert_check_delay_ms,
      start_window_delay_ms, hdw, hdm]

/-! ## The idle counter along a run -/

theorem start_busy_idle_cnt (fc : fuse_stat) (h : Host) :
    (fuse_start_busy fc h).info.idle_cnt = fc.info.idle_cnt := by
  unfold fuse_start_busy
  dsimp only
  split_ifs <;> rfl

theorem update_busy_idle_cnt (K : Kernel) (fc : fuse_stat) (h : Host) :
    (fuse_update_busy K fc h).info.idle_cnt = fc.info.idle_cnt := by
  unfold fuse_update_busy
  dsimp only
  split_ifs <;> rfl

theorem fire_idle_cnt_in_range (K : Kernel) (fc : fuse_stat) (h : Host) (r : TickResult)
    (hi : idle_cnt_in_range fc) (hr : run_delayed_work K fc h = some r) :
    idle_cnt_in_range r.stat := by
  unfold run_delayed_work at hr
  cases hdw : fc.delayed_work with
  | none =>
    rw [hdw] at hr
    cases hr
    exact hi
  | some d =>
    rw [hdw] at hr
    dsimp only at hr
    cases hen : fc.is_enabled with
    | false =>
      simp [fuse_stat_get_status_work, fuse_is_stat_supported, hen] at hr
      subst hr
      exact hi
    | true =>
      have hen2 : ({ fc with delayed_work := none } : fuse_stat).is_enabled = true := hen
      obtain ⟨hc, -⟩ := work_continuation K _ h r hen2 hr
      have hdec : idle_cnt_decided K { fc with delayed_work := none } h = fc.info.idle_cnt ∨
          idle_cnt_decided K { fc with delayed_work := none } h = fc.info.idle_cnt + 1 := by
        unfold idle_cnt_decided
        split_ifs
        · right
          have h1 := hi.1
          have h2 := hi.2
          unfold FUSE_STAT_IDLE_MAX at h2
          show s32 (fc.info.idle_cnt + 1) = fc.info.idle_cnt + 1
          unfold s32
          omega
        · left
          rfl
      unfold idle_cnt_in_range at hi ⊢
      unfold FUSE_STAT_IDLE_MAX at hi hc ⊢
      rw [hc]
      split_ifs with hlt <;> omega

theorem step_idle_cnt_in_range (K : Kernel) (fc : fuse_stat) (ev : Event) (r : TickResult)
    (hi : idle_cnt_in_range fc) (hr : step K fc ev = some r) :
    idle_cnt_in_range r.stat := by
  cases ev with
  | work h => exact fire_idle_cnt_in_range K fc h r hi hr
  | start_busy h =>
    cases hr
    unfold idle_cnt_in_range
    rw [start_busy_idle_cnt]
    exact hi
  | update_busy h =>
    cases hr
    unfold idle_cnt_in_range
    rw [update_busy_idle_cnt]
    exact hi
  | load_scale_up_thre_write w =>
    cases hr
    unfold fuse_load_scale_up_thre_write
    split_ifs <;> exact hi
  | load_scale_down_thre_write w =>
    cases hr
    unfold fuse_load_scale_down_thre_write
    split_ifs <;> exact hi
  | delay_ms_write w =>
    cases hr
    unfold fuse_delay_ms_write
    split_ifs <;> exact hi
  | load_warn_thre_write w =>
    cases hr
    unfold fuse_load_warn_thre_write
    split_ifs <;> exact hi
  | debug_write w =>
    cases hr
    unfold fuse_debug_write
    split_ifs <;> exact hi
  | is_enabled_write w =>
    cases hr
    unfold fuse_is_enabled_write
    split_ifs <;> exact hi

/-- In every state of a run from `fuse_stat_init` the idle counter is 0, 1
or 2. -/
theorem run_idle_cnt_in_range (K : Kernel) (evs : List Event) :
    ∀ (fc s : fuse_stat), idle_cnt_in_range fc → run K fc evs = some s → idle_cnt_in_range s := by
  induction evs with
  | nil =>
    intro fc s hi hr
    cases hr
    exact hi
  | cons ev evs ih =>
    intro fc s hi hr
    unfold run at hr
    cases hst : step K fc ev with
    | none => rw [hst] at hr; cases hr
    | some r =>
      rw [hst] at hr
      exact ih r.stat s (step_idle_cnt_in_range K fc ev r hi hst) hr

theorem init_idle_cnt_in_range (HZ : Nat) (z : fuse_stat) :
    idle_cnt_in_range (fuse_stat_init HZ z) := by
  unfold idle_cnt_in_range fuse_stat_init fuse_stat_reset FUSE_STAT_IDLE_MAX
  exact ⟨le_refl 0, by norm_num⟩

/-- C7, as stated, fails.  In `interleaved_run`, a run from `fuse_stat_init`,
the tick at `jiffies = 1076` is not a zero-load idle tick (it computes load 64
with the busy snapshot true) and leaves `idle_cnt = 2`, not 0; the fire that
follows it, a zero-load idle tick, stops the loop (nothing pending,
`window_start_t = 0`), although the tick immediately before it was loaded. -/
theorem idle_streak_counterexample :
    (run kernel_hz250 fresh (interleaved_run.take 9)).map
        (fun s => (decide (idle_tick kernel_hz250 s (host_at 1076 5304000000 true)),
          window_load kernel_hz250 s.info (host_at 1076 5304000000 true),
          s.info.idle_cnt)) = some (false, 64, 2) ∧
    (run kernel_hz250 fresh interleaved_run).map
        (fun s => (s.info.load, s.info.idle_cnt, delayed_work_pending s.delayed_work,
          decide (idle_tick kernel_hz250 s (host_at 1101 5404000000 false)))) =
        some (64, 2, true, true) ∧
    (run kernel_hz250 fresh (interleaved_run ++ [.work (host_at 1101 5404000000 false)])).map
        (fun s => (delayed_work_pending s.delayed_work, s.info.window_start_t, s.info.idle_cnt)) =
        some (false, 0, 0) := by
  decide

/-- C7, amended. The idle counter accumulates the zero-load idle ticks since
the loop was last armed, consecutive or not.  In every state of a run from
`fuse_stat_init` in which the engine is enabled and a fire is pending, a fire
of the work item that returns: leaves `idle_cnt` unchanged and reschedules
when it is not a zero-load idle tick; raises `idle_cnt` by 1, or clears it
when that reaches 3, when it is one; and leaves nothing pending exactly when
it is a zero-load idle tick and `idle_cnt` was 2 before it. -/
theorem idle_cnt_accumulates (K : Kernel) (HZ : Nat) (z : fuse_stat) (evs : List Event)
    (s : fuse_stat) (h : Host) (r : TickResult)
    (hrun : run K (fuse_stat_init HZ z) evs = some s)
    (hen : s.is_enabled = true)
    (hp : delayed_work_pending s.delayed_work = true)
    (hr : run_delayed_work K s h = some r) :
    (¬ idle_tick K s h →
      r.stat.info.idle_cnt = s.info.idle_cnt ∧
        delayed_work_pending r.stat.delayed_work = true) ∧
    (idle_tick K s h →
      r.stat.info.idle_cnt =
        if s.info.idle_cnt + 1 < FUSE_STAT_IDLE_MAX then s.info.idle_cnt + 1 else 0) ∧
    (delayed_work_pending r.stat.delayed_work = false ↔
      idle_tick K s h ∧ s.info.idle_cnt = 2) := by
  have hin := run_idle_cnt_in_range K evs _ s (init_idle_cnt_in_range HZ z) hrun
  obtain ⟨h0, h3⟩ := hin
  unfold FUSE_STAT_IDLE_MAX at h3 ⊢
  cases hdw : s.delayed_work with
  | none => rw [hdw] at hp; cases hp
  | some d =>
    unfold run_delayed_work at hr
    rw [hdw] at hr
    dsimp only at hr
    have hen2 : ({ s with delayed_work := none } : fuse_stat).is_enabled = true := hen
    obtain ⟨hc, hd⟩ := work_continuation K _ h r hen2 hr
    have hdec : idle_cnt_decided K { s with delayed_work := none } h =
        if idle_tick K s h then s32 (s.info.idle_cnt + 1) else s.info.idle_cnt := rfl
    unfold FUSE_STAT_IDLE_MAX at hc hd
    rw [hdec] at hc hd
    have hsucc : s32 (s.info.idle_cnt + 1) = s.info.idle_cnt + 1 := by
      unfold s32
      omega
    rw [hsucc] at hc hd
    dsimp only [schedule_delayed_work] at hd
    by_cases hi : idle_tick K s h
    · rw [if_pos hi] at hc hd
      refine ⟨fun hn => absurd hi hn, fun _ => hc, ?_⟩
      rw [hd]
      by_cases hlt : s.info.idle_cnt + 1 < 3
      · rw [if_pos hlt]
        constructor
        · intro hx; cases hx
        · intro hx; omega
      · rw [if_neg hlt]
        constructor
        · intro _; exact ⟨hi, by omega⟩
        · intro _; rfl
    · rw [if_neg hi] at hc hd
      rw [if_pos h3] at hc hd
      refine ⟨fun _ => ⟨hc, ?_⟩, fun hx => absurd hx hi, ?_⟩
      · rw [hd]; rfl
      · rw [hd]
        constructor
        · intro hx; cases hx
        · intro hx; exact absurd hx.1 hi

/-- The state `interleaved_run` reaches after its first five calls. -/
theorem interleaved_run_start :
    run kernel_hz250 (fuse_stat_init 250 zeroed) (interleaved_run.take 5) =
      some after_first_idle := by
  decide

/-- Witness of the amended C7: the loaded tick that follows the first idle
tick of `interleaved_run` leaves `idle_cnt = 1` and reschedules. -/
theorem idle_cnt_accumulates_witness :
    ¬ idle_tick kernel_hz250 after_first_idle (host_at 1026 5104000000 true) ∧
      (work_state kernel_hz250 after_first_idle (host_at 1026 5104000000 true)).info.idle_cnt =
        after_first_idle.info.idle_cnt ∧
      delayed_work_pending
        (work_state kernel_hz250 after_first_idle (host_at 1026 5104000000 true)).delayed_work =
        true :=
  ⟨by decide,
    (idle_cnt_accumulates kernel_hz250 250 zeroed (interleaved_run.take 5) after_first_idle
      (host_at 1026 5104000000 true)
      { stat := work_state kernel_hz250 after_first_idle (host_at 1026 5104000000 true)
        warned := false }
      interleaved_run_start (by decide) (by decide) (by decide)).1 (by decide)⟩

/-! ## The dormancy sentinel -/

/-- C8 fails on the code.  In `disable_run`, a run from `fuse_stat_init`
(enable, busy edge at `jiffies = 1000`, disable, fire of the work item), the
disabled run of the work item returns at once: nothing is pending any more,
yet `window_start_t` is still 1000.  From then on, with the engine enabled
again, `fuse_start_busy` finds the window set and does not arm the loop. -/
theorem dormant_with_window_set :
    (run kernel_hz250 fresh (disable_run.take 3)).map
        (fun s => (delayed_work_pending s.delayed_work, s.info.window_start_t)) =
        some (true, 1000) ∧
    (run kernel_hz250 fresh disable_run).map
        (fun s => (delayed_work_pending s.delayed_work, s.info.window_start_t)) =
        some (false, 1000) ∧
    (run kernel_hz250 fresh
        (disable_run ++ [.is_enabled_write (ctl_write 1),
          .start_busy (host_at 2000 9000000000 true)])).map
        (fun s => (s.is_enabled, delayed_work_pending s.delayed_work, s.info.window_start_t)) =
        some (true, false, 1000) := by
  decide

/-! ## Idempotence of the busy edge -/

/-- Once the window is set and a busy interval is open, `fuse_start_busy`
changes nothing. -/
theorem start_busy_noop (fc : fuse_stat) (h : Host)
    (hw : fc.info.window_start_t ≠ 0) (hb : fc.info.is_busy_started = true) :
    fuse_start_busy fc h = fc := by
  unfold fuse_start_busy
  dsimp only
  rw [if_neg hw]
  simp [hb]

theorem start_busy_calls_noop (hs : List Host) (fc : fuse_stat)
    (hw : fc.info.window_start_t ≠ 0) (hb : fc.info.is_busy_started = true) :
    start_busy_calls fc hs = fc := by
  induction hs with
  | nil => rfl
  | cons h hs ih =>
    unfold start_busy_calls at ih ⊢
    rw [List.foldl_cons, start_busy_noop fc h hw hb]
    exact ih

/-- The first call on an enabled engine with the busy predicate true opens
the busy interval, and the window if it was unset; the window then reads as
set when it was set before or the call reads a non-zero `jiffies`. -/
theorem start_busy_opens (fc : fuse_stat) (h : Host)
    (hen : fc.is_enabled = true) (hb : fuse_is_busy h = true)
    (hj : fc.info.window_start_t ≠ 0 ∨ h.jiffies ≠ 0) :
    (fuse_start_busy fc h).info.window_start_t ≠ 0 ∧
      (fuse_start_busy fc h).info.is_busy_started = true := by
  unfold fuse_start_busy
  simp only [fuse_is_stat_supported, hen, hb, Bool.not_true, Bool.false_eq_true, if_false]
  by_cases hw : fc.info.window_start_t = 0
  · rcases hj with hj | hj
    · exact absurd hw hj
    · simp [hw, hj]
  · cases hbs : fc.info.is_busy_started <;> simp [hw, hbs]

/-- C9, as stated, fails.  On an enabled engine whose window is unset, a
first call at `jiffies = 0` stores 0 in `window_start_t`, which still reads
as unset; a second call at `jiffies = 5` (a non-decreasing sequence of call
times, the busy predicate true at both) opens the window again and moves
`busy_start_t`, so the state after two calls is not the state after the
first. -/
theorem start_busy_idempotent_counterexample :
    ({ fresh with is_enabled := true } : fuse_stat).is_enabled = true ∧
      fuse_is_busy (host_at 0 0 true) = true ∧ fuse_is_busy (host_at 5 20000000 true) = true ∧
      (host_at 0 0 true).jiffies ≤ (host_at 5 20000000 true).jiffies ∧
      ((fuse_start_busy { fresh with is_enabled := true } (host_at 0 0 true)).info.window_start_t,
        (fuse_start_busy { fresh with is_enabled := true } (host_at 0 0 true)).info.busy_start_t)
        = (0, 0) ∧
      ((start_busy_calls { fresh with is_enabled := true }
          [host_at 0 0 true, host_at 5 20000000 true]).info.window_start_t,
        (start_busy_calls { fresh with is_enabled := true }
          [host_at 0 0 true, host_at 5 20000000 true]).info.busy_start_t) = (5, 20000000) ∧
      start_busy_calls { fresh with is_enabled := true }
          [host_at 0 0 true, host_at 5 20000000 true] ≠
        fuse_start_busy { fresh with is_enabled := true } (host_at 0 0 true) := by
  decide

/-- C9, amended. Idempotence of `fuse_start_busy`: for every state (enabled
or not) whose window is already set, or whose first call reads a non-zero
`jiffies` (zero is the "unset" value of `window_start_t`), for a first call
with the busy predicate true and every sequence of further calls, whatever
their times, the whole engine state after all the calls equals the state
after the first call alone. -/
theorem start_busy_idempotent (fc : fuse_stat) (h1 : Host) (hs : List Host)
    (hb : fuse_is_busy h1 = true)
    (hj : fc.info.window_start_t ≠ 0 ∨ h1.jiffies ≠ 0) :
    start_busy_calls fc (h1 :: hs) = fuse_start_busy fc h1 := by
  show start_busy_calls (fuse_start_busy fc h1) hs = fuse_start_busy fc h1
  cases hen : fc.is_enabled with
  | true =>
    obtain ⟨hw, hbs⟩ := start_busy_opens fc h1 hen hb hj
    exact start_busy_calls_noop hs _ hw hbs
  | false =>
    have hno : ∀ h, fuse_start_busy fc h = fc := by
      intro h
      simp [fuse_start_busy, fuse_is_stat_supported, hen]
    rw [hno h1]
    induction hs with
    | nil => rfl
    | cons h hs ih =>
      unfold start_busy_calls at ih ⊢
      rw [List.foldl_cons, hno h]
      exact ih

/-- Witness of the amended C9: four calls on an enabled engine whose loop is
stopped, at non-decreasing times from `jiffies = 1000`. -/
theorem start_busy_idempotent_witness :
    ({ fresh with is_enabled := true } : fuse_stat).is_enabled = true ∧
      start_busy_calls { fresh with is_enabled := true }
        [host_at 1000 5000000000 true, host_at 1000 5000100000 true,
         host_at 1003 5012000000 true, host_at 1010 5040000000 true] =
      fuse_start_busy { fresh with is_enabled := true } (host_at 1000 5000000000 true) :=
  ⟨rfl, start_busy_idempotent { fresh with is_enabled := true } (host_at 1000 5000000000 true)
    [host_at 1000 5000100000 true, host_at 1003 5012000000 true, host_at 1010 5040000000 true]
    (by decide) (Or.inr (by decide))⟩

/-! ## Alert suppression -/

/-! The write handlers leave the window record alone. -/

theorem load_scale_up_thre_write_info (fc : fuse_stat) (w : CtlWrite) :
    (fuse_load_scale_up_thre_write fc w).1.info = fc.info := by
  unfold fuse_load_scale_up_thre_write
  split_ifs <;> rfl

theorem load_scale_down_thre_write_info (fc : fuse_stat) (w : CtlWrite) :
    (fuse_load_scale_down_thre_write fc w).1.info = fc.info := by
  unfold fuse_load_scale_down_thre_write
  split_ifs <;> rfl

theorem delay_ms_write_info (fc : fuse_stat) (w : CtlWrite) :
    (fuse_delay_ms_write fc w).1.info = fc.info := by
  unfold fuse_delay_ms_write
  split_ifs <;> rfl

theorem load_warn_thre_write_info (fc : fuse_stat) (w : CtlWrite) :
    (fuse_load_warn_thre_write fc w).1.info = fc.info := by
  unfold fuse_load_warn_thre_write
  split_ifs <;> rfl

theorem debug_write_info (fc : fuse_stat) (w : CtlWrite) :
    (fuse_debug_write fc w).1.info = fc.info := by
  unfold fuse_debug_write
  split_ifs <;> rfl

theorem is_enabled_write_info (fc : fuse_stat) (w : CtlWrite) :
    (fuse_is_enabled_write fc w).1.info = fc.info := by
  unfold fuse_is_enabled_write
  split_ifs <;> rfl


theorem continuation_load_high_cnt (K : Kernel) (stat : fuse_stat) :
    (continuation K stat).info.load_high_cnt = stat.info.load_high_cnt := by
  unfold continuation fuse_stat_schedule_work
  split <;> rfl

theorem start_window_load_high_cnt (stat : fuse_stat) (h : Host) (b : Bool) :
    (start_window stat h b).info.load_high_cnt = stat.info.load_high_cnt := rfl

theorem start_busy_load_high_cnt (fc : fuse_stat) (h : Host) :
    (fuse_start_busy fc h).info.load_high_cnt = fc.info.load_high_cnt := by
  unfold fuse_start_busy
  dsimp only
  split_ifs <;> rfl

theorem update_busy_load_high_cnt (K : Kernel) (fc : fuse_stat) (h : Host) :
    (fuse_update_busy K fc h).info.load_high_cnt = fc.info.load_high_cnt := by
  unfold fuse_update_busy
  dsimp only
  split_ifs <;> rfl

/-- The alert check emits only when the streak had credit four, and then
clears it; otherwise the credit grows by at most one. -/
theorem alert_check_credit (stat : fuse_stat) (load : Int) (h : Host) :
    5 * (if (alert_check stat load h).2 then 1 else 0) +
        streak_credit (alert_check stat load h).1.info.load_high_cnt ≤
      streak_credit stat.info.load_high_cnt + 1 := by
  unfold alert_check
  dsimp only
  by_cases hw : stat.load_warn_thre ≠ 0
  · rw [if_pos hw]
    by_cases hl : load > stat.load_warn_thre
    · rw [if_pos hl]
      by_cases hc : (decide (s32 (stat.info.load_high_cnt + 1) ≥
          FUSE_STAT_LOAD_HIGH_COUNTER_THRESHOLD) && h.ratelimit_grant) = true
      · rw [if_pos hc]
        simp only [Bool.and_eq_true, decide_eq_true_eq] at hc
        have h5 := hc.1
        unfold FUSE_STAT_LOAD_HIGH_COUNTER_THRESHOLD at h5
        unfold streak_credit
        unfold s32 at h5 ⊢
        simp only [if_true]
        omega
      · rw [if_neg hc]
        unfold streak_credit s32
        simp only [Bool.false_eq_true, if_false]
        omega
    · rw [if_neg hl]
      unfold streak_credit s32
      simp only [Bool.false_eq_true, if_false]
      omega
  · rw [if_neg hw]
    simp

/-- One run of the work item emits at most one warning, and only by spending
a full streak. -/
theorem work_credit (K : Kernel) (fc : fuse_stat) (h : Host) (r : TickResult)
    (hr : fuse_stat_get_status_work K fc h = some r) :
    5 * (if r.warned then 1 else 0) + streak_credit r.stat.info.load_high_cnt ≤
      streak_credit fc.info.load_high_cnt + 1 := by
  cases hen : fc.is_enabled with
  | false =>
    simp [fuse_stat_get_status_work, fuse_is_stat_supported, hen] at hr
    subst hr
    simp
  | true =>
    obtain ⟨stat1, load, hs, hst, hwarn⟩ := work_some K fc h r hen hr
    obtain ⟨hcnt, -, -, -⟩ := sample_window_frame K fc stat1 h _ load hs
    have hac := alert_check_credit (start_window stat1 h (fuse_is_busy h)) load h
    rw [start_window_load_high_cnt, hcnt] at hac
    rw [hst, hwarn, continuation_load_high_cnt]
    exact hac

theorem step_credit (K : Kernel) (fc : fuse_stat) (ev : Event) (r : TickResult)
    (hr : step K fc ev = some r) :
    5 * (if r.warned then 1 else 0) + streak_credit r.stat.info.load_high_cnt ≤
      streak_credit fc.info.load_high_cnt + (if ev.is_work then 1 else 0) := by
  cases ev with
  | work h =>
    simp only [Event.is_work, if_true]
    unfold step run_delayed_work at hr
    cases hdw : fc.delayed_work with
    | none =>
      rw [hdw] at hr
      cases hr
      simp
    | some d =>
      rw [hdw] at hr
      dsimp only at hr
      have hc := work_credit K _ h r hr
      dsimp only at hc
      exact hc
  | start_busy h =>
    cases hr
    simp [Event.is_work, start_busy_load_high_cnt]
  | update_busy h =>
    cases hr
    simp [Event.is_work, update_busy_load_high_cnt]
  | load_scale_up_thre_write w =>
    cases hr
    simp [Event.is_work, load_scale_up_thre_write_info]
  | load_scale_down_thre_write w =>
    cases hr
    simp [Event.is_work, load_scale_down_thre_write_info]
  | delay_ms_write w =>
    cases hr
    simp [Event.is_work, delay_ms_write_info]
  | load_warn_thre_write w =>
    cases hr
    simp [Event.is_work, load_warn_thre_write_info]
  | debug_write w =>
    cases hr
    simp [Event.is_work, debug_write_info]
  | is_enabled_write w =>
    cases hr
    simp [Event.is_work, is_enabled_write_info]

theorem ticks_cons (ev : Event) (evs : List Event) :
    ticks (ev :: evs) = (if ev.is_work then 1 else 0) + ticks evs := by
  unfold ticks
  rw [List.filter_cons]
  split_ifs <;> simp [Nat.add_comm]

/-- Five warnings cost five ticks each, less the credit of the streak at the
start. -/
theorem warnings_credit (K : Kernel) (evs : List Event) :
    ∀ fc : fuse_stat, 5 * warnings K fc evs ≤ ticks evs + streak_credit fc.info.load_high_cnt := by
  induction evs with
  | nil =>
    intro fc
    simp [warnings]
  | cons ev evs ih =>
    intro fc
    unfold warnings
    rw [ticks_cons]
    cases hst : step K fc ev with
    | none => simp
    | some r =>
      have h1 := step_credit K fc ev r hst
      have h2 := ih r.stat
      dsimp only
      omega

theorem streak_credit_le (c : Int) : streak_credit c ≤ 4 := by
  unfold streak_credit
  omega

/-- C10. Alert suppression: from every state (any `load_high_cnt`, any
`load_warn_thre`), for every sequence of calls into the engine that contains
at most 20 fires of the work item, whatever the loads, the host inputs and
the answers of the rate limiter, at most 5 warnings are emitted. -/
theorem alert_suppression (K : Kernel) (fc : fuse_stat) (evs : List Event)
    (hn : ticks evs ≤ 20) :
    warnings K fc evs ≤ 5 := by
  have h1 := warnings_credit K evs fc
  have h2 := streak_credit_le fc.info.load_high_cnt
  omega

/-- Witness of C10: `load_warn_thre = 80` and load 95 on each of 20
consecutive ticks, the rate limiter granting every time. -/
theorem alert_suppression_witness :
    high_load_state.load_warn_thre = 80 ∧ ticks high_load_run = 20 ∧
      warnings kernel_hz250 high_load_state high_load_run ≤ 5 :=
  ⟨by decide, by decide, alert_suppression kernel_hz250 high_load_state high_load_run (by decide)⟩

/-! ## Configuration through the control files -/

theorem u32_natCast (v : Nat) (h : v < 2 ^ 32) : u32 (v : Int) = v := by
  unfold u32
  omega

theorem limit_write_accept (req : WriteReq) (l : Nat) (h : req.value ≤ l) :
    fuse_conn_limit_write req l = { ret := req.count, val := req.value, conn := req.conn } := by
  unfold fuse_conn_limit_write
  rw [if_pos h]

theorem limit_write_reject (req : WriteReq) (l : Nat) (h : l < req.value) :
    fuse_conn_limit_write req l = { ret := -EINVAL, val := req.val_uninit, conn := req.conn } := by
  unfold fuse_conn_limit_write
  rw [if_neg (by omega)]

/-- C11. Round trip and rejection, for each writable knob with its limit
(100 for the three thresholds, 1000 for `delay_ms`, 1 for `debug` and
`is_enabled`), on a live connection and for a write of at least one byte: a
value within the limit is accepted (the write returns the byte count) and a
following read returns it; a value above the limit is rejected (the write
returns a negative error), the state is unchanged and a following read
returns what it returned before the write. -/
theorem config_round_trip (k : Knob) (fc : fuse_stat) (req : WriteReq)
    (hc : 0 < req.count) (hl : req.conn = true) :
    (req.value ≤ k.limit →
      (k.write fc req).2 = req.count ∧ k.read (k.write fc req).1 true = some req.value) ∧
    (k.limit < req.value →
      (k.write fc req).2 < 0 ∧ (k.write fc req).1 = fc ∧
        k.read (k.write fc req).1 true = k.read fc true) := by
  have hc2 : (req.count : Int) > 0 := by exact_mod_cast hc
  have hneg : ¬ (-EINVAL > 0) := by decide
  constructor
  · intro hv
    cases k <;> simp only [Knob.limit] at hv <;>
      simp only [Knob.write, Knob.read, limit_write_accept req _ hv,
        fuse_load_scale_up_thre_write, fuse_load_scale_down_thre_write,
        fuse_load_warn_thre_write, fuse_delay_ms_write, fuse_debug_write, fuse_is_enabled_write,
        fuse_load_scale_up_thre_read, fuse_load_scale_down_thre_read,
        fuse_load_warn_thre_read, fuse_delay_ms_read, fuse_debug_read, fuse_is_enabled_read,
        fuse_conn_limit_read, hc2, hl, if_true, Bool.not_true, Bool.false_eq_true, if_false,
        true_and, Option.some.injEq]
    · exact u32_natCast _ (by omega)
    · exact u32_natCast _ (by omega)
    · exact u32_natCast _ (by omega)
    · exact u32_natCast _ (by omega)
    · interval_cases hq : req.value <;> simp
    · interval_cases hq : req.value <;> simp
  · intro hv
    cases k <;> simp only [Knob.limit] at hv <;>
      simp only [Knob.write, Knob.read, limit_write_reject req _ hv,
        fuse_load_scale_up_thre_write, fuse_load_scale_down_thre_write,
        fuse_load_warn_thre_write, fuse_delay_ms_write, fuse_debug_write, fuse_is_enabled_write,
        hneg, if_false, and_self, and_true] <;> decide

/-- Witness of C11: writing 50 to `load_scale_up_thre` reads back 50; writing
150 is rejected and the read still returns the default 60. -/
theorem config_round_trip_witness :
    (Knob.read .load_scale_up_thre (Knob.write .load_scale_up_thre fresh (write_req 50)).1 true =
        some 50) ∧
      ((Knob.write .load_scale_up_thre fresh (write_req 150)).2 < 0 ∧
        Knob.read .load_scale_up_thre (Knob.write .load_scale_up_thre fresh (write_req 150)).1
          true = some 60) :=
  ⟨((config_round_trip .load_scale_up_thre fresh (write_req 50) (by decide) rfl).1
      (by decide)).2,
    ((config_round_trip .load_scale_up_thre fresh (write_req 150) (by decide) rfl).2
      (by decide)).1,
    (((config_round_trip .load_scale_up_thre fresh (write_req 150) (by decide) rfl).2
      (by decide)).2.2).trans (by decide)⟩

/-! ## Life cycle -/

/-- C12. From every prior state `fuse_stat_init` yields the same state:
`delay_ms = 100`, `load_warn_thre = 90`, `load_scale_up_thre = 60`,
`load_scale_down_thre = 30`, disabled, `debug` off, `is_primary` set,
`freq_request = FUSE_SCALE_NORMAL`, every field of the window record zero or
false (load 0, window unset, no busy time, no busy interval, both counters
0), a rate limit of 5 per `3 * HZ` jiffies, and no fire of the work item
pending. -/
theorem init_defaults (HZ : Nat) (fc : fuse_stat) :
    fuse_stat_init HZ fc =
      { info :=
          { tot_busy_t := 0, window_start_t := 0, busy_start_t := 0, is_busy_started := false,
            is_scaled_up := false, load := 0, load_high_cnt := 0, idle_cnt := 0 }
        delayed_work := none
        is_enabled := false
        is_primary := true
        freq_request := FUSE_SCALE_NORMAL
        ratelimit := { interval := 3 * HZ, burst := 5 }
        delay_ms := 100
        load_scale_up_thre := 60
        load_scale_down_thre := 30
        load_warn_thre := 90
        debug := false } ∧
      delayed_work_pending (fuse_stat_init HZ fc).delayed_work = false := by
  constructor <;> rfl

theorem exit_step (K : Kernel) (fc : fuse_stat) (ev : Event)
    (hev : ev.is_engine_call = true) :
    step K (fuse_stat_exit fc) ev = some { stat := fuse_stat_exit fc, warned := false } := by
  cases ev <;> first | rfl | cases hev

/-- C13. From every state `fuse_stat_exit` changes three fields and nothing
else: `freq_request` becomes `FUSE_SCALE_DOWN`, `is_enabled` false and no fire
is pending.  On the state it leaves, a run of the work item, `fuse_start_busy`
and `fuse_update_busy` return the state unchanged, with no warning and
nothing scheduled; so does every sequence of such calls, and the signal stays
`FUSE_SCALE_DOWN`. -/
theorem exit_is_final (K : Kernel) (fc : fuse_stat) (h : Host) (evs : List Event)
    (hev : ∀ ev ∈ evs, ev.is_engine_call = true) :
    fuse_stat_exit fc =
        { fc with freq_request := FUSE_SCALE_DOWN, is_enabled := false, delayed_work := none } ∧
      fuse_stat_get_status_work K (fuse_stat_exit fc) h =
        some { stat := fuse_stat_exit fc, warned := false } ∧
      fuse_start_busy (fuse_stat_exit fc) h = fuse_stat_exit fc ∧
      fuse_update_busy K (fuse_stat_exit fc) h = fuse_stat_exit fc ∧
      run K (fuse_stat_exit fc) evs = some (fuse_stat_exit fc) ∧
      warnings K (fuse_stat_exit fc) evs = 0 ∧
      (fuse_stat_exit fc).freq_request = FUSE_SCALE_DOWN ∧
      delayed_work_pending (fuse_stat_exit fc).delayed_work = false := by
  refine ⟨rfl, rfl, rfl, rfl, ?_, ?_, rfl, rfl⟩
  · induction evs with
    | nil => rfl
    | cons ev evs ih =>
      unfold run
      rw [exit_step K fc ev (hev ev (List.mem_cons_self ev evs))]
      exact ih (fun e he => hev e (List.mem_cons_of_mem ev he))
  · induction evs with
    | nil => rfl
    | cons ev evs ih =>
      unfold warnings
      rw [exit_step K fc ev (hev ev (List.mem_cons_self ev evs))]
      simp only [Bool.false_eq_true, if_false, Nat.zero_add]
      exact ih (fun e he => hev e (List.mem_cons_of_mem ev he))

/-- Witness of C13: after `fuse_stat_exit` on a busy, scheduled engine, a busy
edge, a fire of the work item and an update leave the state as it was. -/
theorem exit_is_final_witness :
    run kernel_hz250 (fuse_stat_exit busy_state)
        [.start_busy (host_at 1030 5120000000 true), .work (host_at 1050 5200000000 true),
         .update_busy (host_at 1060 5240000000 false)] = some (fuse_stat_exit busy_state) ∧
      (fuse_stat_exit busy_state).freq_request = FUSE_SCALE_DOWN :=
  ⟨(exit_is_final kernel_hz250 busy_state (host_at 1030 5120000000 true)
      [.start_busy (host_at 1030 5120000000 true), .work (host_at 1050 5200000000 true),
       .update_busy (host_at 1060 5240000000 false)] (by decide)).2.2.2.2.1, rfl⟩

/-! ## The decision as a whole -/

/-- C16. A run that reaches the decision step returns for every pair of
thresholds, ordered or not.  The signal it leaves is given by the rules in
their order, first match winning: congestion forces `FUSE_SCALE_UP`; else
load zero with the busy snapshot false gives `FUSE_SCALE_DOWN`; else a load
above `load_scale_up_thre` gives `FUSE_SCALE_UP`; else a load below
`load_scale_down_thre` gives `FUSE_SCALE_DOWN`; else `FUSE_SCALE_NORMAL`.
Hence the signal is `FUSE_SCALE_NORMAL` exactly when there is no congestion,
the tick is not zero-load-and-idle and
`load_scale_down_thre <= load <= load_scale_up_thre`. -/
theorem normal_is_fall_through (K : Kernel) (fc : fuse_stat) (h : Host)
    (hd : reaches_decision K fc h) :
    ∃ r, fuse_stat_get_status_work K fc h = some r ∧
      r.stat.freq_request =
        (if congested h then FUSE_SCALE_UP
         else if window_load K fc.info h = 0 ∧ fuse_is_busy h = false then FUSE_SCALE_DOWN
         else if window_load K fc.info h > fc.load_scale_up_thre then FUSE_SCALE_UP
         else if window_load K fc.info h < fc.load_scale_down_thre then FUSE_SCALE_DOWN
         else FUSE_SCALE_NORMAL) ∧
      (r.stat.freq_request = FUSE_SCALE_NORMAL ↔
        ¬ congested h ∧ ¬ (window_load K fc.info h = 0 ∧ fuse_is_busy h = false) ∧
          fc.load_scale_down_thre ≤ window_load K fc.info h ∧
          window_load K fc.info h ≤ fc.load_scale_up_thre) := by
  obtain ⟨r, hr, hs⟩ := work_freq_request K fc h hd
  have hcas : r.stat.freq_request =
      (if congested h then FUSE_SCALE_UP
       else if window_load K fc.info h = 0 ∧ fuse_is_busy h = false then FUSE_SCALE_DOWN
       else if window_load K fc.info h > fc.load_scale_up_thre then FUSE_SCALE_UP
       else if window_load K fc.info h < fc.load_scale_down_thre then FUSE_SCALE_DOWN
       else FUSE_SCALE_NORMAL) := by
    rw [hs, signal_eq]
    rfl
  refine ⟨r, hr, hcas, ?_⟩
  rw [hcas]
  unfold FUSE_SCALE_NORMAL FUSE_SCALE_UP FUSE_SCALE_DOWN
  split_ifs with h1 h2 h3 h4
  · simp [h1]
  · simp [h2]
  · constructor
    · intro hx; cases hx
    · intro hx; omega
  · constructor
    · intro hx; cases hx
    · intro hx; omega
  · constructor
    · intro _; exact ⟨h1, h2, by omega, by omega⟩
    · intro _; rfl

/-- Witness of C16: with the thresholds inverted (up 10, down 50) a load of
30 is above scale-up, so the signal is not `FUSE_SCALE_NORMAL`; the run
returns all the same. -/
theorem normal_is_fall_through_witness :
    ∃ r, fuse_stat_get_status_work kernel_hz250
        { partly_busy_state with load_scale_up_thre := 10, load_scale_down_thre := 50 }
        (host_at 1025 5100000000 false) = some r ∧
      r.stat.freq_request ≠ FUSE_SCALE_NORMAL := by
  obtain ⟨r, hr, hc, -⟩ := normal_is_fall_through kernel_hz250
    { partly_busy_state with load_scale_up_thre := 10, load_scale_down_thre := 50 }
    (host_at 1025 5100000000 false) (by decide)
  refine ⟨r, hr, ?_⟩
  rw [hc]
  decide

/-! ## Registration of the control files -/

/-- C17 fails on the code for one file.  `freq_request`, `load` and
`is_primary` are registered read-only, and `load_scale_down_thre`,
`load_warn_thre`, `delay_ms`, `debug` and `is_enabled` read/write; but
`load_scale_up_thre`, whose operations do have a write handler, is registered
with mode `S_IFREG | S_IRUGO`, without `S_IWUGO`. -/
theorem load_scale_up_thre_mode_lacks_write :
    [CtlFile.freq_request, .load, .is_primary].map registered_read_only = [true, true, true] ∧
    [CtlFile.load_scale_down_thre, .load_warn_thre, .delay_ms, .debug, .is_enabled].map
        registered_read_write = [true, true, true, true, true] ∧
    registered_read_write .load_scale_up_thre = false ∧
    (ctl_lookup .load_scale_up_thre).map (fun e => (e.mode, e.fop.write)) =
      some ([.S_IFREG, .S_IRUGO], some .load_scale_up_thre) := by
  decide

/-! ## The busy-stop edge -/

/-- C18. On an enabled engine, `fuse_update_busy` with the busy predicate
false and a busy interval open adds the length of the interval,
`ktime_to_us(now - busy_start_t)`, to `tot_busy_t` (as an `unsigned long`),
clears `busy_start_t` and `is_busy_started`, and changes no other field; the
new `tot_busy_t` is the exact sum whenever neither the difference nor the sum
overflows.  With the busy predicate true, or with no interval open, it
leaves the whole state unchanged. -/
theorem update_busy_edge (K : Kernel) (fc : fuse_stat) (h : Host)
    (hen : fc.is_enabled = true) :
    (fuse_is_busy h = false → fc.info.is_busy_started = true →
      fuse_update_busy K fc h =
          { fc with info := { fc.info with
              tot_busy_t :=
                u64 (fc.info.tot_busy_t + K.ktime_to_us (s64 (h.ktime - fc.info.busy_start_t)))
              busy_start_t := 0
              is_busy_started := false } } ∧
        (-2 ^ 63 ≤ h.ktime - fc.info.busy_start_t → h.ktime - fc.info.busy_start_t < 2 ^ 63 →
          0 ≤ K.ktime_to_us (h.ktime - fc.info.busy_start_t) →
          fc.info.tot_busy_t + K.ktime_to_us (h.ktime - fc.info.busy_start_t) < 2 ^ 64 →
          ((fuse_update_busy K fc h).info.tot_busy_t : Int) =
            fc.info.tot_busy_t + K.ktime_to_us (h.ktime - fc.info.busy_start_t))) ∧
    (fuse_is_busy h = true ∨ fc.info.is_busy_started = false →
      fuse_update_busy K fc h = fc) := by
  constructor
  · intro hb hs
    have heq : fuse_update_busy K fc h =
        { fc with info := { fc.info with
            tot_busy_t :=
              u64 (fc.info.tot_busy_t + K.ktime_to_us (s64 (h.ktime - fc.info.busy_start_t)))
            busy_start_t := 0
            is_busy_started := false } } := by
      simp [fuse_update_busy, fuse_is_stat_supported, hen, hb, hs]
    refine ⟨heq, ?_⟩
    intro h1 h2 h3 h4
    rw [heq]
    have hs64 : s64 (h.ktime - fc.info.busy_start_t) = h.ktime - fc.info.busy_start_t := by
      unfold s64
      omega
    show ((u64 (fc.info.tot_busy_t + K.ktime_to_us (s64 (h.ktime - fc.info.busy_start_t))) : Nat)
      : Int) = _
    rw [hs64]
    unfold u64
    omega
  · intro hor
    rcases hor with hb | hs
    · simp [fuse_update_busy, fuse_is_stat_supported, hen, hb]
    · simp [fuse_update_busy, fuse_is_stat_supported, hen, hs]

/-- Witness of C18: the busy interval of `busy_state`, open since
`ktime_get() = 5000000000`, ends 60 milliseconds later. -/
theorem update_busy_edge_witness :
    ((fuse_update_busy kernel_hz250 busy_state (host_at 1015 5060000000 false)).info.tot_busy_t
        : Int) =
      busy_state.info.tot_busy_t +
        kernel_hz250.ktime_to_us
          ((host_at 1015 5060000000 false).ktime - busy_state.info.busy_start_t) :=
  ((update_busy_edge kernel_hz250 busy_state (host_at 1015 5060000000 false) rfl).1
    (by decide) (by decide)).2 (by decide) (by decide) (by decide) (by decide)

/-! ## The alert path and the control path -/


theorem control_view_continuation (K : Kernel) (s : fuse_stat) :
    control_view (continuation K s) = continuation K (control_view s) := by
  unfold continuation fuse_stat_schedule_work
  split_ifs with h1 h2 h2
  · rfl
  · exact absurd h1 h2
  · exact absurd h2 h1
  · rfl

theorem control_view_alert_check (s : fuse_stat) (load : Int) (h : Host) :
    control_view (alert_check s load h).1 = control_view s := by
  unfold alert_check
  dsimp only
  split_ifs <;> rfl

theorem control_view_start_window (s : fuse_stat) (h : Host) (b : Bool) :
    control_view (start_window s h b) = start_window (control_view s) (control_inputs h) b := rfl

theorem control_view_decision (s : fuse_stat) (load : Int) (b : Bool) :
    control_view (decision s load b) = decision (control_view s) load b := by
  have e1 : (control_view s).load_scale_up_thre = s.load_scale_up_thre := rfl
  have e2 : (control_view s).load_scale_down_thre = s.load_scale_down_thre := rfl
  unfold decision
  rw [e1, e2]
  split_ifs <;> rfl

theorem control_view_congestion_override (s : fuse_stat) (h : Host) :
    control_view (congestion_override s h) =
      congestion_override (control_view s) (control_inputs h) := by
  unfold congestion_override
  split_ifs with h1 h2 h2
  · rfl
  · exact absurd h1 h2
  · exact absurd h2 h1
  · rfl


theorem control_view_idem (s : fuse_stat) : control_view (control_view s) = control_view s := rfl

theorem control_view_sample_window (K : Kernel) (s : fuse_stat) (h : Host) (b : Bool) :
    (sample_window K (control_view s) (control_inputs h) b).map (fun p => p.1) =
      (sample_window K s h b).map (fun p => control_view p.1) := by
  have ew : (control_view s).info.window_start_t = s.info.window_start_t := rfl
  have et : total_time K (control_view s).info (control_inputs h) = total_time K s.info h := rfl
  unfold sample_window
  rw [ew, et]
  split_ifs with h1 h2
  · rfl
  · rfl
  · simp only [Option.map_some']
    rw [control_view_congestion_override, control_view_decision]
    rfl

/-- The view of the state a run leaves depends on the view of the state and
of the inputs it starts from only. -/
theorem control_view_work (K : Kernel) (fc : fuse_stat) (h : Host) :
    (fuse_stat_get_status_work K fc h).map (fun r => control_view r.stat) =
      (fuse_stat_get_status_work K (control_view fc) (control_inputs h)).map
        (fun r => control_view r.stat) := by
  have hsw := control_view_sample_window K fc h (fuse_is_busy h)
  have een : (control_view fc).is_enabled = fc.is_enabled := rfl
  have eb : fuse_is_busy (control_inputs h) = fuse_is_busy h := rfl
  unfold fuse_stat_get_status_work fuse_is_stat_supported
  rw [een, eb]
  cases hen : fc.is_enabled with
  | false => rfl
  | true =>
    simp only [Bool.not_true, Bool.false_eq_true, if_false]
    cases h1 : sample_window K fc h (fuse_is_busy h) with
    | none =>
      rw [h1] at hsw
      cases h2 : sample_window K (control_view fc) (control_inputs h) (fuse_is_busy h) with
      | none => rfl
      | some p => rw [h2] at hsw; cases hsw
    | some p =>
      rw [h1] at hsw
      cases h2 : sample_window K (control_view fc) (control_inputs h) (fuse_is_busy h) with
      | none => rw [h2] at hsw; cases hsw
      | some q =>
        rw [h2] at hsw
        simp only [Option.map_some', Option.some.injEq] at hsw
        simp only [Option.map_some', Option.some.injEq]
        rw [control_view_continuation, control_view_alert_check, control_view_start_window,
          control_view_continuation, control_view_alert_check, control_view_start_window,
          hsw]
        rfl

/-- C14. The alert path never influences control.  Two runs of the work item
whose states agree on everything but `load_warn_thre`, `load_high_cnt`,
`debug` and the rate limiter, and whose inputs agree on everything but the
answer of the rate limiter (and the content of the unassigned local `load`),
fault together or return together, and then leave states that agree on
everything but those fields: the same `freq_request`, `load`, `idle_cnt`,
`window_start_t`, `tot_busy_t`, `busy_start_t`, `is_busy_started` and the
same pending or not pending fire. -/
theorem alert_path_noninterference (K : Kernel) (fc1 fc2 : fuse_stat) (h1 h2 : Host)
    (hs : control_view fc1 = control_view fc2)
    (hh : control_inputs h1 = control_inputs h2) :
    (fuse_stat_get_status_work K fc1 h1).map (fun r => control_view r.stat) =
        (fuse_stat_get_status_work K fc2 h2).map (fun r => control_view r.stat) ∧
      ∀ r1 r2, fuse_stat_get_status_work K fc1 h1 = some r1 →
        fuse_stat_get_status_work K fc2 h2 = some r2 →
        r1.stat.freq_request = r2.stat.freq_request ∧
          r1.stat.info.load = r2.stat.info.load ∧
          r1.stat.info.idle_cnt = r2.stat.info.idle_cnt ∧
          r1.stat.info.window_start_t = r2.stat.info.window_start_t ∧
          r1.stat.info.tot_busy_t = r2.stat.info.tot_busy_t ∧
          r1.stat.info.busy_start_t = r2.stat.info.busy_start_t ∧
          r1.stat.info.is_busy_started = r2.stat.info.is_busy_started ∧
          r1.stat.delayed_work = r2.stat.delayed_work := by
  have hv : (fuse_stat_get_status_work K fc1 h1).map (fun r => control_view r.stat) =
      (fuse_stat_get_status_work K fc2 h2).map (fun r => control_view r.stat) := by
    rw [control_view_work K fc1 h1, control_view_work K fc2 h2, hs, hh]
  refine ⟨hv, ?_⟩
  intro r1 r2 e1 e2
  rw [e1, e2] at hv
  simp only [Option.map_some', Option.some.injEq] at hv
  have hf : ∀ s : fuse_stat, s.freq_request = (control_view s).freq_request := fun _ => rfl
  have hi : ∀ s : fuse_stat,
      (s.info.load, s.info.idle_cnt, s.info.window_start_t, s.info.tot_busy_t,
        s.info.busy_start_t, s.info.is_busy_started) =
      ((control_view s).info.load, (control_view s).info.idle_cnt,
        (control_view s).info.window_start_t, (control_view s).info.tot_busy_t,
        (control_view s).info.busy_start_t, (control_view s).info.is_busy_started) :=
    fun _ => rfl
  have hd : ∀ s : fuse_stat, s.delayed_work = (control_view s).delayed_work := fun _ => rfl
  have hi1 := hi r1.stat
  have hi2 := hi r2.stat
  rw [hv] at hi1
  rw [← hi2] at hi1
  simp only [Prod.mk.injEq] at hi1
  obtain ⟨a1, a2, a3, a4, a5, a6⟩ := hi1
  refine ⟨?_, a1, a2, a3, a4, a5, a6, ?_⟩
  · rw [hf r1.stat, hf r2.stat, hv]
  · rw [hd r1.stat, hd r2.stat, hv]

/-- Witness of C14: a busy window sampled once with the defaults and a
granting rate limiter, once with `load_warn_thre = 5`, `debug` on,
`load_high_cnt = 4` and a refusing rate limiter. -/
theorem alert_path_noninterference_witness :
    (fuse_stat_get_status_work kernel_hz250 busy_state (host_at 1025 5100000000 true)).map
        (fun r => control_view r.stat) =
      (fuse_stat_get_status_work kernel_hz250
        { busy_state with
          load_warn_thre := 5
          debug := true
          info := { busy_state.info with load_high_cnt := 4 } }
        { host_at 1025 5100000000 true with ratelimit_grant := false }).map
        (fun r => control_view r.stat) :=
  (alert_path_noninterference kernel_hz250 busy_state
    { busy_state with
      load_warn_thre := 5
      debug := true
      info := { busy_state.info with load_high_cnt := 4 } }
    (host_at 1025 5100000000 true)
    { host_at 1025 5100000000 true with ratelimit_grant := false } rfl rfl).1

/-! ## The fields a run leaves -/

theorem continuation_tot_busy_t (K : Kernel) (stat : fuse_stat) :
    (continuation K stat).info.tot_busy_t = stat.info.tot_busy_t := by
  unfold continuation fuse_stat_schedule_work
  split <;> rfl

theorem alert_check_tot_busy_t (stat : fuse_stat) (load : Int) (h : Host) :
    (alert_check stat load h).1.info.tot_busy_t = stat.info.tot_busy_t := by
  unfold alert_check
  dsimp only
  split_ifs <;> rfl

theorem continuation_busy_start_t (K : Kernel) (stat : fuse_stat) :
    (continuation K stat).info.busy_start_t = stat.info.busy_start_t := by
  unfold continuation fuse_stat_schedule_work
  split <;> rfl

theorem alert_check_busy_start_t (stat : fuse_stat) (load : Int) (h : Host) :
    (alert_check stat load h).1.info.busy_start_t = stat.info.busy_start_t := by
  unfold alert_check
  dsimp only
  split_ifs <;> rfl

theorem continuation_is_busy_started (K : Kernel) (stat : fuse_stat) :
    (continuation K stat).info.is_busy_started = stat.info.is_busy_started := by
  unfold continuation fuse_stat_schedule_work
  split <;> rfl

theorem alert_check_is_busy_started (stat : fuse_stat) (load : Int) (h : Host) :
    (alert_check stat load h).1.info.is_busy_started = stat.info.is_busy_started := by
  unfold alert_check
  dsimp only
  split_ifs <;> rfl

theorem continuation_load (K : Kernel) (stat : fuse_stat) :
    (continuation K stat).info.load = stat.info.load := by
  unfold continuation fuse_stat_schedule_work
  split <;> rfl

theorem alert_check_load (stat : fuse_stat) (load : Int) (h : Host) :
    (alert_check stat load h).1.info.load = stat.info.load := by
  unfold alert_check
  dsimp only
  split_ifs <;> rfl

/-! ## The load formula -/


theorem decision_load (stat : fuse_stat) (load : Int) (is_busy : Bool) :
    (decision stat load is_busy).info.load = stat.info.load := by
  unfold decision
  split_ifs <;> rfl

theorem start_window_load (stat : fuse_stat) (h : Host) (b : Bool) :
    (start_window stat h b).info.load = stat.info.load := rfl

/-- A run that reaches the decision step stores the computed load. -/
theorem work_load (K : Kernel) (fc : fuse_stat) (h : Host) (hd : reaches_decision K fc h) :
    ∃ r, fuse_stat_get_status_work K fc h = some r ∧
      r.stat.info.load = window_load K fc.info h ∧
      r.stat.freq_request = signal (sampled K fc h) (window_load K fc.info h) h := by
  obtain ⟨r, hr, hs⟩ := work_freq_request K fc h hd
  refine ⟨r, hr, ?_, hs⟩
  have hr2 := work_of_reaches_decision K fc h hd
  rw [hr] at hr2
  cases hr2
  rw [continuation_load, alert_check_load, start_window_load, congestion_override_info,
    decision_load]
  rfl

/-- Without overflow the machine computation of the busy time is the exact
one. -/
theorem busy_time_eq_spec (K : Kernel) (info : fuse_stat_info) (h : Host)
    (h1 : info.is_busy_started = true →
      -2 ^ 63 ≤ h.ktime - info.busy_start_t ∧ h.ktime - info.busy_start_t < 2 ^ 63)
    (h2 : 0 ≤ spec_busy K info h) (h3 : spec_busy K info h < 2 ^ 64) :
    (busy_time K info h : Int) = spec_busy K info h := by
  unfold busy_time
  unfold spec_busy at h2 h3 ⊢
  cases hs : info.is_busy_started with
  | false => simp
  | true =>
    obtain ⟨ha, hb⟩ := h1 hs
    have hs64 : s64 (h.ktime - info.busy_start_t) = h.ktime - info.busy_start_t := by
      unfold s64
      omega
    simp only [hs, if_true] at h2 h3 ⊢
    rw [hs64]
    unfold u64
    omega

/-- Without overflow the machine computation of the load is the exact
one. -/
theorem window_load_eq_spec (K : Kernel) (info : fuse_stat_info) (h : Host)
    (h1 : info.is_busy_started = true →
      -2 ^ 63 ≤ h.ktime - info.busy_start_t ∧ h.ktime - info.busy_start_t < 2 ^ 63)
    (h2 : 0 ≤ spec_busy K info h) (h3 : spec_busy K info h * 100 < 2 ^ 64)
    (h4 : spec_load K info h < 2 ^ 31) :
    window_load K info h = spec_load K info h := by
  have hb := busy_time_eq_spec K info h h1 h2 (by omega)
  have hlt : busy_time K info h * 100 < 2 ^ 64 := by
    have : ((busy_time K info h * 100 : Nat) : Int) < 2 ^ 64 := by
      push_cast
      rw [hb]
      exact h3
    exact_mod_cast this
  unfold window_load
  rw [Nat.mod_eq_of_lt hlt]
  have hcast : ((busy_time K info h * 100 / total_time K info h : Nat) : Int) =
      spec_load K info h := by
    unfold spec_load
    push_cast
    rw [hb]
  rw [hcast]
  have h0 : 0 ≤ spec_load K info h := by
    unfold spec_load
    exact Int.ediv_nonneg (by omega) (Int.natCast_nonneg _)
  unfold s32
  omega

/-- C15. Load formula: a run of the work item that reaches the decision step
returns and stores `info.load = floor(B * 100 / elapsed)`, where `elapsed` is
the length of the window in microseconds and `B` is `tot_busy_t`, plus
`now - busy_start_t` in microseconds when a busy interval is open; this for
every tick on which the machine arithmetic does not overflow (the time
difference fits an `s64`, `B` is not negative, `B * 100` fits an
`unsigned long` and the quotient an `int`).  In particular, when the
resource was busy for the whole window, `B = elapsed`, the load is 100, and
with `load_scale_up_thre` below 100 (60 by default) and no congestion the
signal is `FUSE_SCALE_UP`. -/
theorem load_formula (K : Kernel) (fc : fuse_stat) (h : Host)
    (hd : reaches_decision K fc h)
    (h1 : fc.info.is_busy_started = true →
      -2 ^ 63 ≤ h.ktime - fc.info.busy_start_t ∧ h.ktime - fc.info.busy_start_t < 2 ^ 63)
    (h2 : 0 ≤ spec_busy K fc.info h) (h3 : spec_busy K fc.info h * 100 < 2 ^ 64)
    (h4 : spec_load K fc.info h < 2 ^ 31) :
    ∃ r, fuse_stat_get_status_work K fc h = some r ∧
      r.stat.info.load = spec_load K fc.info h ∧
      (spec_busy K fc.info h = total_time K fc.info h →
        r.stat.info.load = 100 ∧
          (fc.load_scale_up_thre < 100 → ¬ congested h →
            r.stat.freq_request = FUSE_SCALE_UP)) := by
  obtain ⟨r, hr, hl, hs⟩ := work_load K fc h hd
  have hw := window_load_eq_spec K fc.info h h1 h2 h3 h4
  refine ⟨r, hr, hl.trans hw, ?_⟩
  intro hfull
  have hT : (total_time K fc.info h : Int) ≠ 0 := by
    have := hd.2.2
    omega
  have h100 : spec_load K fc.info h = 100 := by
    unfold spec_load
    rw [hfull]
    exact Int.mul_ediv_cancel_left 100 hT
  refine ⟨(hl.trans hw).trans h100, ?_⟩
  intro hup hc
  rw [hs, signal_eq, if_neg hc, hw, h100]
  have hup2 : (100 : Int) > (sampled K fc h).load_scale_up_thre := hup
  rw [if_neg (by omega), if_pos hup2]

/-- Witness of C15: a window of 25 jiffies (100 ms at `HZ = 250`), busy
throughout, with the default `load_scale_up_thre = 60`. -/
theorem load_formula_witness :
    spec_busy kernel_hz250 busy_state.info (host_at 1025 5100000000 true) = 100000 ∧
      total_time kernel_hz250 busy_state.info (host_at 1025 5100000000 true) = 100000 ∧
      busy_state.load_scale_up_thre = 60 ∧
      ∃ r, fuse_stat_get_status_work kernel_hz250 busy_state (host_at 1025 5100000000 true) =
          some r ∧
        r.stat.info.load = 100 ∧ r.stat.freq_request = FUSE_SCALE_UP := by
  refine ⟨by decide, by decide, by decide, ?_⟩
  obtain ⟨r, hr, -, hfull⟩ := load_formula kernel_hz250 busy_state
    (host_at 1025 5100000000 true) (by decide) (by decide) (by decide) (by decide) (by decide)
  exact ⟨r, hr, (hfull (by decide)).1, (hfull (by decide)).2 (by decide) (by decide)⟩

/-! ## The window after a run -/

/-- An enabled run on an unset window, or on a window of non-zero length,
returns. -/
theorem work_returns (K : Kernel) (fc : fuse_stat) (h : Host)
    (hen : fc.is_enabled = true)
    (hnf : fc.info.window_start_t = 0 ∨ 0 < total_time K fc.info h) :
    ∃ r, fuse_stat_get_status_work K fc h = some r := by
  by_cases hw : fc.info.window_start_t = 0
  · simp [fuse_stat_get_status_work, fuse_is_stat_supported, hen, sample_window, hw]
  · rcases hnf with h0 | ht
    · exact absurd h0 hw
    · exact ⟨_, work_of_reaches_decision K fc h ⟨hen, hw, ht⟩⟩

theorem sample_window_unset (K : Kernel) (fc : fuse_stat) (h : Host) (b : Bool)
    (hw : fc.info.window_start_t = 0) :
    sample_window K fc h b = some (fc, h.load_uninit) := by
  unfold sample_window
  rw [if_pos hw]

/-- C19. Window re-arm: an enabled run of the work item, on an unset window
or on a window of non-zero length, from a state with `idle_cnt` in 0..2 (as
in every run from `fuse_stat_init`), returns and leaves `tot_busy_t = 0`,
`is_busy_started` equal to the busy snapshot, `busy_start_t` equal to the
current `ktime_get()` when the snapshot is true and 0 when it is false.  When
the idle counter after the decision step is below `FUSE_STAT_IDLE_MAX` the
run reschedules and `window_start_t` is the current `jiffies`; otherwise it
schedules nothing and `window_start_t` is 0.  A run that finds the window
unset leaves `freq_request`, `info.load` and `idle_cnt` as they were. -/
theorem window_rearm (K : Kernel) (fc : fuse_stat) (h : Host)
    (hen : fc.is_enabled = true)
    (hir : idle_cnt_in_range fc)
    (hnf : fc.info.window_start_t = 0 ∨ 0 < total_time K fc.info h) :
    ∃ r, fuse_stat_get_status_work K fc h = some r ∧
      r.stat.info.tot_busy_t = 0 ∧
      r.stat.info.is_busy_started = fuse_is_busy h ∧
      r.stat.info.busy_start_t = (if fuse_is_busy h then h.ktime else 0) ∧
      r.stat.info.window_start_t =
        (if idle_cnt_decided K fc h < FUSE_STAT_IDLE_MAX then h.jiffies else 0) ∧
      r.stat.delayed_work =
        (if idle_cnt_decided K fc h < FUSE_STAT_IDLE_MAX then
          schedule_delayed_work fc.delayed_work (K.msecs_to_jiffies fc.delay_ms)
        else fc.delayed_work) ∧
      (fc.info.window_start_t = 0 →
        idle_cnt_decided K fc h < FUSE_STAT_IDLE_MAX ∧
          r.stat.freq_request = fc.freq_request ∧
          r.stat.info.load = fc.info.load ∧
          r.stat.info.idle_cnt = fc.info.idle_cnt) := by
  obtain ⟨r, hr⟩ := work_returns K fc h hen hnf
  obtain ⟨hc, hdw⟩ := work_continuation K fc h r hen hr
  obtain ⟨stat1, load, hs, hst, -⟩ := work_some K fc h r hen hr
  have hcnt := sample_window_idle_cnt K fc stat1 h load hen hs
  refine ⟨r, hr, ?_, ?_, ?_, ?_, hdw, ?_⟩
  · rw [hst, continuation_tot_busy_t, alert_check_tot_busy_t]
    rfl
  · rw [hst, continuation_is_busy_started, alert_check_is_busy_started]
    rfl
  · rw [hst, continuation_busy_start_t, alert_check_busy_start_t]
    rfl
  · rw [hst, continuation_window_start_t, alert_check_idle_cnt, alert_check_window_start_t,
      start_window_idle_cnt, start_window_window_start_t, hcnt]
  · intro hw
    have hni : ¬ idle_tick K fc h := fun hi => hi.1.2.1 hw
    have hdec : idle_cnt_decided K fc h = fc.info.idle_cnt := by
      unfold idle_cnt_decided
      rw [if_neg hni]
    have hlt : idle_cnt_decided K fc h < FUSE_STAT_IDLE_MAX := by
      rw [hdec]
      exact hir.2
    rw [sample_window_unset K fc h _ hw] at hs
    cases hs
    refine ⟨hlt, ?_, ?_, ?_⟩
    · rw [hst, continuation_freq_request, alert_check_freq_request]
      rfl
    · rw [hst, continuation_load, alert_check_load]
      rfl
    · rw [hc, if_pos hlt, hdec]

/-- Witness of C19: the run of the work item on `busy_state` at
`jiffies = 1025` with the connection still busy. -/
theorem window_rearm_witness :
    ∃ r, fuse_stat_get_status_work kernel_hz250 busy_state (host_at 1025 5100000000 true) =
        some r ∧
      r.stat.info.tot_busy_t = 0 ∧ r.stat.info.is_busy_started = true ∧
      r.stat.info.busy_start_t = 5100000000 ∧ r.stat.info.window_start_t = 1025 := by
  obtain ⟨r, hr, h1, h2, h3, h4, -, -⟩ := window_rearm kernel_hz250 busy_state
    (host_at 1025 5100000000 true) (by decide) ⟨by decide, by decide⟩ (by decide)
  refine ⟨r, hr, h1, h2, h3, ?_⟩
  rw [h4]
  decide

/-! ## The load on one clock -/


theorem u64_eq (x : Int) (h0 : 0 ≤ x) (h1 : x < 2 ^ 64) : ((u64 x : Nat) : Int) = x := by
  unfold u64
  omega

theorem s64_eq (x : Int) (h0 : -2 ^ 63 ≤ x) (h1 : x < 2 ^ 63) : s64 x = x := by
  unfold s64
  omega

theorem busy_within_window_mono (t t2 : Nat) (s : fuse_stat) (hle : t ≤ t2)
    (hi : busy_within_window t s) : busy_within_window t2 s := by
  obtain ⟨h1, h2⟩ := hi
  refine ⟨le_trans h1 hle, fun hw => ?_⟩
  obtain ⟨h3, h4⟩ := h2 hw
  refine ⟨fun hs => ?_, fun hs => ?_⟩
  · obtain ⟨a, b, c⟩ := h3 hs
    exact ⟨a, by omega, c⟩
  · have := h4 hs
    omega

/-- The window record `fuse_start_busy` leaves when it passes its two
guards. -/
theorem start_busy_info (s : fuse_stat) (h : Host)
    (hen : s.is_enabled = true) (hb : fuse_is_busy h = true) :
    (fuse_start_busy s h).info =
      if s.info.window_start_t = 0 then
        { s.info with
          window_start_t := h.jiffies, tot_busy_t := 0, busy_start_t := h.ktime,
          is_busy_started := true }
      else if s.info.is_busy_started then s.info
      else { s.info with busy_start_t := h.ktime, is_busy_started := true } := by
  by_cases hw : s.info.window_start_t = 0 <;> cases hs : s.info.is_busy_started <;>
    simp [fuse_start_busy, fuse_is_stat_supported, hen, hb, hw, hs]

theorem start_busy_skip (s : fuse_stat) (h : Host)
    (hg : s.is_enabled = false ∨ fuse_is_busy h = false) :
    fuse_start_busy s h = s := by
  rcases hg with hen | hb
  · simp [fuse_start_busy, fuse_is_stat_supported, hen]
  · cases hen : s.is_enabled <;> simp [fuse_start_busy, fuse_is_stat_supported, hen, hb]

theorem start_busy_within_window (t : Nat) (s : fuse_stat) (h : Host)
    (hle : t ≤ h.jiffies) (hk : h.ktime = (h.jiffies : Int))
    (hi : busy_within_window t s) : busy_within_window h.jiffies (fuse_start_busy s h) := by
  have hm := busy_within_window_mono t h.jiffies s hle hi
  cases hen : s.is_enabled with
  | false => rw [start_busy_skip s h (Or.inl hen)]; exact hm
  | true =>
    cases hb : fuse_is_busy h with
    | false => rw [start_busy_skip s h (Or.inr hb)]; exact hm
    | true =>
      have hinfo := start_busy_info s h hen hb
      unfold busy_within_window
      rw [hinfo]
      by_cases hw : s.info.window_start_t = 0
      · rw [if_pos hw]
        dsimp only
        refine ⟨le_refl _, fun _ => ⟨fun _ => ?_, fun hs => ?_⟩⟩
        · omega
        · cases hs
      · rw [if_neg hw]
        cases hs : s.info.is_busy_started with
        | true =>
          simp only [if_true]
          exact hm
        | false =>
          simp only [Bool.false_eq_true, if_false]
          obtain ⟨a, b⟩ := hi
          have := (b hw).2 hs
          refine ⟨by omega, fun _ => ⟨fun _ => ?_, fun hx => ?_⟩⟩
          · omega
          · cases hx

theorem update_busy_within_window (K : Kernel) (hK : one_unit K) (t : Nat) (s : fuse_stat)
    (h : Host) (hle : t ≤ h.jiffies) (hb : h.jiffies < clock_bound)
    (hk : h.ktime = (h.jiffies : Int))
    (hi : busy_within_window t s) :
    busy_within_window h.jiffies (fuse_update_busy K s h) := by
  have hm := busy_within_window_mono t h.jiffies s hle hi
  unfold clock_bound at hb
  unfold fuse_update_busy
  dsimp only
  split_ifs with h1 h2
  · exact hm
  · simp only [Bool.and_eq_true, Bool.not_eq_true'] at h2
    obtain ⟨-, hs⟩ := h2
    obtain ⟨a, b⟩ := hm
    refine ⟨a, fun hw => ⟨fun hx => ?_, fun _ => ?_⟩⟩
    · cases hx
    · obtain ⟨c, d, e⟩ := (b hw).1 hs
      dsimp only
      rw [hK.2, hk]
      have hs64 := s64_eq ((h.jiffies : Int) - s.info.busy_start_t) (by omega) (by omega)
      rw [hs64]
      have hu := u64_eq ((s.info.tot_busy_t : Int) + ((h.jiffies : Int) - s.info.busy_start_t))
        (by omega) (by omega)
      omega
  · exact hm

/-- The window record an enabled run that returns leaves: the window
re-armed. -/
theorem work_rearm (K : Kernel) (fc : fuse_stat) (h : Host) (r : TickResult)
    (hen : fc.is_enabled = true) (hr : fuse_stat_get_status_work K fc h = some r) :
    r.stat.info.tot_busy_t = 0 ∧
      r.stat.info.is_busy_started = fuse_is_busy h ∧
      r.stat.info.busy_start_t = (if fuse_is_busy h then h.ktime else 0) ∧
      (r.stat.info.window_start_t = h.jiffies ∨ r.stat.info.window_start_t = 0) := by
  obtain ⟨stat1, load, -, hst, -⟩ := work_some K fc h r hen hr
  refine ⟨?_, ?_, ?_, ?_⟩
  · rw [hst, continuation_tot_busy_t, alert_check_tot_busy_t]
    rfl
  · rw [hst, continuation_is_busy_started, alert_check_is_busy_started]
    rfl
  · rw [hst, continuation_busy_start_t, alert_check_busy_start_t]
    rfl
  · rw [hst, continuation_window_start_t, alert_check_idle_cnt, alert_check_window_start_t,
      start_window_idle_cnt, start_window_window_start_t]
    split_ifs
    · left; rfl
    · right; rfl

theorem fire_within_window (K : Kernel) (t : Nat) (s : fuse_stat) (h : Host) (r : TickResult)
    (hle : t ≤ h.jiffies) (hk : h.ktime = (h.jiffies : Int))
    (hi : busy_within_window t s) (hr : run_delayed_work K s h = some r) :
    busy_within_window h.jiffies r.stat := by
  have hm := busy_within_window_mono t h.jiffies s hle hi
  unfold run_delayed_work at hr
  cases hdw : s.delayed_work with
  | none =>
    rw [hdw] at hr
    cases hr
    exact hm
  | some d =>
    rw [hdw] at hr
    dsimp only at hr
    cases hen : s.is_enabled with
    | false =>
      simp [fuse_stat_get_status_work, fuse_is_stat_supported, hen] at hr
      subst hr
      exact hm
    | true =>
      have hen2 : ({ s with delayed_work := none } : fuse_stat).is_enabled = true := hen
      obtain ⟨a, b, c, d⟩ := work_rearm K _ h r hen2 hr
      unfold busy_within_window
      rw [a, b, c]
      rcases d with d | d
      · rw [d]
        refine ⟨le_refl _, fun _ => ⟨fun hb => ?_, fun _ => ?_⟩⟩
        · rw [hb, if_pos rfl, hk]
          omega
        · omega
      · rw [d]
        exact ⟨Nat.zero_le _, fun hx => absurd rfl hx⟩

theorem step_within_window (K : Kernel) (hK : one_unit K) (t : Nat) (s : fuse_stat)
    (ev : Event) (r : TickResult) (hc : one_clock t [ev])
    (hi : busy_within_window t s) (hr : step K s ev = some r) :
    busy_within_window (clock_after t [ev]) r.stat := by
  cases ev with
  | start_busy h =>
    obtain ⟨hle, -, hk, -⟩ := hc
    cases hr
    exact start_busy_within_window t s h hle hk hi
  | update_busy h =>
    obtain ⟨hle, hb, hk, -⟩ := hc
    cases hr
    exact update_busy_within_window K hK t s h hle hb hk hi
  | work h =>
    obtain ⟨hle, -, hk, -⟩ := hc
    exact fire_within_window K t s h r hle hk hi hr
  | load_scale_up_thre_write w =>
    cases hr
    unfold busy_within_window
    rw [load_scale_up_thre_write_info]
    exact hi
  | load_scale_down_thre_write w =>
    cases hr
    unfold busy_within_window
    rw [load_scale_down_thre_write_info]
    exact hi
  | delay_ms_write w =>
    cases hr
    unfold busy_within_window
    rw [delay_ms_write_info]
    exact hi
  | load_warn_thre_write w =>
    cases hr
    unfold busy_within_window
    rw [load_warn_thre_write_info]
    exact hi
  | debug_write w =>
    cases hr
    unfold busy_within_window
    rw [debug_write_info]
    exact hi
  | is_enabled_write w =>
    cases hr
    unfold busy_within_window
    rw [is_enabled_write_info]
    exact hi

theorem one_clock_cons (t : Nat) (ev : Event) (evs : List Event) (hc : one_clock t (ev :: evs)) :
    one_clock t [ev] ∧ one_clock (clock_after t [ev]) evs := by
  cases hh : ev.host with
  | none =>
    have h1 : one_clock t (ev :: evs) = one_clock t evs := by simp only [one_clock, hh]
    have h2 : clock_after t [ev] = t := by simp only [clock_after, hh]
    have h3 : one_clock t [ev] = True := by simp only [one_clock, hh]
    rw [h1] at hc
    rw [h2, h3]
    exact ⟨trivial, hc⟩
  | some h =>
    have h1 : one_clock t (ev :: evs) =
        (t ≤ h.jiffies ∧ h.jiffies < clock_bound ∧ h.ktime = (h.jiffies : Int) ∧
          one_clock h.jiffies evs) := by simp only [one_clock, hh]
    have h2 : clock_after t [ev] = h.jiffies := by simp only [clock_after, hh]
    have h3 : one_clock t [ev] =
        (t ≤ h.jiffies ∧ h.jiffies < clock_bound ∧ h.ktime = (h.jiffies : Int) ∧ True) := by
      simp only [one_clock, hh]
    rw [h1] at hc
    rw [h2, h3]
    exact ⟨⟨hc.1, hc.2.1, hc.2.2.1, trivial⟩, hc.2.2.2⟩

theorem clock_after_cons (t : Nat) (ev : Event) (evs : List Event) :
    clock_after t (ev :: evs) = clock_after (clock_after t [ev]) evs := by
  cases hh : ev.host with
  | none => simp only [clock_after, hh]
  | some h => simp only [clock_after, hh]

/-- Along a run on one clock the busy time accounted stays within the
window. -/
theorem run_within_window (K : Kernel) (hK : one_unit K) (evs : List Event) :
    ∀ (t : Nat) (fc s : fuse_stat), one_clock t evs → busy_within_window t fc →
      run K fc evs = some s → busy_within_window (clock_after t evs) s := by
  induction evs with
  | nil =>
    intro t fc s _ hi hr
    cases hr
    exact hi
  | cons ev evs ih =>
    intro t fc s hc hi hr
    obtain ⟨hc1, hc2⟩ := one_clock_cons t ev evs hc
    unfold run at hr
    cases hst : step K fc ev with
    | none => rw [hst] at hr; cases hr
    | some r =>
      rw [hst] at hr
      rw [clock_after_cons]
      exact ih _ r.stat s hc2 (step_within_window K hK t fc ev r hc1 hi hst) hr

theorem init_within_window (HZ : Nat) (z : fuse_stat) :
    busy_within_window 0 (fuse_stat_init HZ z) := by
  unfold busy_within_window
  exact ⟨le_refl _, fun hx => absurd rfl hx⟩

/-- C20. Load bound on one clock.  Let the unit conversions be identities and
let every call read one non-decreasing clock (the same reading from `jiffies`
and `ktime_get()`, below `clock_bound`).  In every state of a run from
`fuse_stat_init` and at every later reading of that clock, when
`window_start_t` is set the busy time accounted for the window, `tot_busy_t`
plus the length of an open busy interval, is not negative and not more than
`now - window_start_t`, which is what `total_time` computes; and a run of the
work item that reaches the decision step there returns and stores a load
between 0 and 100. -/
theorem load_bound (K : Kernel) (HZ : Nat) (z : fuse_stat) (evs : List Event)
    (s : fuse_stat) (h : Host)
    (hK : one_unit K) (hc : one_clock 0 evs)
    (hrun : run K (fuse_stat_init HZ z) evs = some s)
    (hle : clock_after 0 evs ≤ h.jiffies) (hb : h.jiffies < clock_bound)
    (hk : h.ktime = (h.jiffies : Int)) :
    (s.info.window_start_t ≠ 0 →
      0 ≤ spec_busy K s.info h ∧
        spec_busy K s.info h ≤ (h.jiffies : Int) - s.info.window_start_t ∧
        (total_time K s.info h : Int) = (h.jiffies : Int) - s.info.window_start_t ∧
        busy_time K s.info h ≤ total_time K s.info h) ∧
    (reaches_decision K s h →
      ∃ r, fuse_stat_get_status_work K s h = some r ∧
        0 ≤ r.stat.info.load ∧ r.stat.info.load ≤ 100) := by
  have hinv := run_within_window K hK evs 0 _ s hc (init_within_window HZ z) hrun
  have hm := busy_within_window_mono _ h.jiffies s hle hinv
  obtain ⟨hws, hrest⟩ := hm
  unfold clock_bound at hb
  have hfacts : s.info.window_start_t ≠ 0 →
      (s.info.is_busy_started = true →
        -2 ^ 63 ≤ h.ktime - s.info.busy_start_t ∧ h.ktime - s.info.busy_start_t < 2 ^ 63) ∧
      0 ≤ spec_busy K s.info h ∧
      spec_busy K s.info h ≤ (h.jiffies : Int) - s.info.window_start_t ∧
      (total_time K s.info h : Int) = (h.jiffies : Int) - s.info.window_start_t := by
    intro hw
    obtain ⟨hopen, hclosed⟩ := hrest hw
    have htt : (total_time K s.info h : Int) = (h.jiffies : Int) - s.info.window_start_t := by
      unfold total_time
      rw [hK.1]
      have e1 := s64_eq (h.jiffies : Int) (by omega) (by omega)
      have e2 := s64_eq (s.info.window_start_t : Int) (by omega) (by omega)
      rw [e1, e2]
      exact u64_eq _ (by omega) (by omega)
    cases hs : s.info.is_busy_started with
    | true =>
      obtain ⟨a, b, c⟩ := hopen hs
      have hsb : spec_busy K s.info h =
          s.info.tot_busy_t + (h.ktime - s.info.busy_start_t) := by
        unfold spec_busy
        rw [hs, if_pos rfl, hK.2]
      rw [hsb, hk]
      exact ⟨fun _ => ⟨by omega, by omega⟩, by omega, by omega, htt⟩
    | false =>
      have := hclosed hs
      have hsb : spec_busy K s.info h = s.info.tot_busy_t := by
        unfold spec_busy
        rw [hs]
        rfl
      rw [hsb]
      refine ⟨fun hx => ?_, ?_, ?_, htt⟩
      · cases hx
      · omega
      · omega
  constructor
  · intro hw
    obtain ⟨f1, f2, f3, f4⟩ := hfacts hw
    have hbt := busy_time_eq_spec K s.info h f1 f2 (by omega)
    refine ⟨f2, f3, f4, ?_⟩
    have : (busy_time K s.info h : Int) ≤ (total_time K s.info h : Int) := by
      rw [hbt, f4]
      exact f3
    exact_mod_cast this
  · intro hd
    obtain ⟨f1, f2, f3, f4⟩ := hfacts hd.2.1
    have hT : (0 : Int) < (total_time K s.info h : Int) := by
      have := hd.2.2
      omega
    have hl0 : 0 ≤ spec_load K s.info h := by
      unfold spec_load
      exact Int.ediv_nonneg (by omega) (by omega)
    have hl100 : spec_load K s.info h ≤ 100 := by
      unfold spec_load
      apply Int.ediv_le_of_le_mul hT
      omega
    have hw := window_load_eq_spec K s.info h f1 f2 (by omega) (by omega)
    obtain ⟨r, hr, hl, -⟩ := work_load K s h hd
    refine ⟨r, hr, ?_, ?_⟩
    · rw [hl, hw]
      exact hl0
    · rw [hl, hw]
      exact hl100

/-- The state `one_clock_run` reaches from `fuse_stat_init`. -/
theorem one_clock_run_end :
    run kernel_usec (fuse_stat_init 250 zeroed) one_clock_run =
      some { fresh with
        is_enabled := true
        delayed_work := some 100000
        freq_request := FUSE_SCALE_UP
        info := { fresh.info with
          tot_busy_t := 60000, window_start_t := 1500, load := 100, load_high_cnt := 1 } } := by
  decide

/-- The calls of `one_clock_run` read one non-decreasing clock. -/
theorem one_clock_run_clock : one_clock 0 one_clock_run := by
  unfold one_clock_run
  simp only [one_clock, Event.host]
  decide

/-- Witness of C20: after `one_clock_run`, 60 of the 100 milliseconds of the
window were busy and the tick at 101500 microseconds stores a load within
0..100. -/
theorem load_bound_witness :
    ∃ r, fuse_stat_get_status_work kernel_usec
        { fresh with
          is_enabled := true
          delayed_work := some 100000
          freq_request := FUSE_SCALE_UP
          info := { fresh.info with
            tot_busy_t := 60000, window_start_t := 1500, load := 100, load_high_cnt := 1 } }
        (host_usec 101500 false) = some r ∧
      0 ≤ r.stat.info.load ∧ r.stat.info.load ≤ 100 :=
  (load_bound kernel_usec 250 zeroed one_clock_run _ (host_usec 101500 false)
    ⟨fun _ => rfl, fun _ => rfl⟩
    one_clock_run_clock
    one_clock_run_end (by decide) (by decide) (by decide)).2 (by decide)

/-! ## Disable and re-enable -/

theorem is_enabled_written_eq (s : fuse_stat) (w : CtlWrite)
    (hr : w.ret > 0) (hc : w.conn = true) :
    is_enabled_written s w = { s with is_enabled := decide (w.val ≠ 0) } := by
  unfold is_enabled_written fuse_is_enabled_write
  rw [if_pos hr, if_pos hc]

/-- With the window set, `fuse_start_busy` touches neither the pending fire
nor the window start, the signal and the load. -/
theorem start_busy_stalled (ref s : fuse_stat) (h : Host)
    (hw : ref.info.window_start_t ≠ 0) (hs : stalled ref s) :
    stalled ref (fuse_start_busy s h) := by
  obtain ⟨h1, h2, h3, h4⟩ := hs
  have hw2 : s.info.window_start_t ≠ 0 := by rw [h2]; exact hw
  unfold stalled fuse_start_busy
  dsimp only
  rw [if_neg hw2]
  split_ifs <;> exact ⟨h1, h2, h3, h4⟩

theorem update_busy_stalled (K : Kernel) (ref s : fuse_stat) (h : Host)
    (hs : stalled ref s) : stalled ref (fuse_update_busy K s h) := by
  unfold stalled fuse_update_busy
  dsimp only
  split_ifs <;> exact hs

theorem step_stalled (K : Kernel) (ref s : fuse_stat) (ev : Event)
    (hw : ref.info.window_start_t ≠ 0) (hev : ev.is_engine_call = true)
    (hs : stalled ref s) :
    ∃ s2, step K s ev = some { stat := s2, warned := false } ∧ stalled ref s2 := by
  cases ev with
  | start_busy h => exact ⟨_, rfl, start_busy_stalled ref s h hw hs⟩
  | update_busy h => exact ⟨_, rfl, update_busy_stalled K ref s h hs⟩
  | work h =>
    refine ⟨s, ?_, hs⟩
    unfold step run_delayed_work
    rw [hs.1]
  | load_scale_up_thre_write w => cases hev
  | load_scale_down_thre_write w => cases hev
  | delay_ms_write w => cases hev
  | load_warn_thre_write w => cases hev
  | debug_write w => cases hev
  | is_enabled_write w => cases hev

/-- From a stalled loop, calls of `fuse_start_busy`, `fuse_update_busy` and of
the work queue never fault, never warn and leave the loop stalled. -/
theorem run_stalled (K : Kernel) (ref : fuse_stat) (hw : ref.info.window_start_t ≠ 0)
    (evs : List Event) :
    ∀ s : fuse_stat, (∀ ev ∈ evs, ev.is_engine_call = true) → stalled ref s →
      ∃ s2, run K s evs = some s2 ∧ stalled ref s2 ∧ warnings K s evs = 0 := by
  induction evs with
  | nil =>
    intro s _ hs
    exact ⟨s, rfl, hs, rfl⟩
  | cons ev evs ih =>
    intro s hev hs
    obtain ⟨s1, hst, hs1⟩ := step_stalled K ref s ev hw (hev ev (List.mem_cons_self ev evs)) hs
    obtain ⟨s2, hr, hs2, hwn⟩ := ih s1 (fun e he => hev e (List.mem_cons_of_mem ev he)) hs1
    refine ⟨s2, ?_, hs2, ?_⟩
    · unfold run
      rw [hst]
      exact hr
    · unfold warnings
      rw [hst]
      simp only [Bool.false_eq_true, if_false, Nat.zero_add]
      exact hwn

/-- C21. Disable and re-enable.  Take a state with a fire of the work item
pending and `window_start_t` set, and a successful write of 0 to
`is_enabled`.  The next run of the work item returns at once: no field
changes and nothing is rescheduled (the pending fire is consumed).  After a
successful write of a non-zero value to `is_enabled`, the engine is enabled
again, but every sequence of `fuse_start_busy` and `fuse_update_busy` calls
(and of fires of the work queue, which has nothing to fire) returns with
nothing pending, `window_start_t` still set to the old value, and
`freq_request` and `info.load` as they were; no warning is emitted. -/
theorem disable_reenable_stalls (K : Kernel) (s : fuse_stat) (h : Host) (d : Nat)
    (w0 w1 : CtlWrite) (evs : List Event)
    (hp : s.delayed_work = some d) (hw : s.info.window_start_t ≠ 0)
    (h0 : w0.ret > 0 ∧ w0.conn = true ∧ w0.val = 0)
    (h1 : w1.ret > 0 ∧ w1.conn = true ∧ w1.val ≠ 0)
    (hev : ∀ ev ∈ evs, ev.is_engine_call = true) :
    fuse_stat_get_status_work K (is_enabled_written s w0) h =
        some { stat := is_enabled_written s w0, warned := false } ∧
      run_delayed_work K (is_enabled_written s w0) h =
        some { stat := { is_enabled_written s w0 with delayed_work := none }, warned := false } ∧
      (is_enabled_written { is_enabled_written s w0 with delayed_work := none } w1).is_enabled =
        true ∧
      ∃ s2,
        run K (is_enabled_written { is_enabled_written s w0 with delayed_work := none } w1) evs =
          some s2 ∧
        delayed_work_pending s2.delayed_work = false ∧
        s2.info.window_start_t = s.info.window_start_t ∧
        s2.info.window_start_t ≠ 0 ∧
        s2.freq_request = s.freq_request ∧
        s2.info.load = s.info.load ∧
        warnings K (is_enabled_written { is_enabled_written s w0 with delayed_work := none } w1)
          evs = 0 := by
  obtain ⟨r0, c0, v0⟩ := h0
  obtain ⟨r1, c1, v1⟩ := h1
  have e0 : is_enabled_written s w0 = { s with is_enabled := false } := by
    rw [is_enabled_written_eq s w0 r0 c0, v0]
    rfl
  have e1 : is_enabled_written { is_enabled_written s w0 with delayed_work := none } w1 =
      { s with is_enabled := true, delayed_work := none } := by
    rw [is_enabled_written_eq _ w1 r1 c1, e0]
    simp [v1]
  rw [e1, e0]
  refine ⟨rfl, ?_, rfl, ?_⟩
  · unfold run_delayed_work
    dsimp only
    rw [hp]
    rfl
  · have hst : stalled s { s with is_enabled := true, delayed_work := none } :=
      ⟨rfl, rfl, rfl, rfl⟩
    obtain ⟨s2, hr, hs2, hwn⟩ := run_stalled K s hw evs _ hev hst
    refine ⟨s2, hr, ?_, hs2.2.1, ?_, hs2.2.2.1, hs2.2.2.2, hwn⟩
    · rw [hs2.1]
      rfl
    · rw [hs2.2.1]
      exact hw

/-- Witness of C21: `busy_state` (a fire pending, window opened at
`jiffies = 1000`) is disabled, the work item fires, the engine is enabled
again; a busy edge, the end of the busy interval, a fire of the work queue
and another busy edge leave nothing pending and the window where it was. -/
theorem disable_reenable_stalls_witness :
    ∃ s2,
      run kernel_hz250
          (is_enabled_written
            { is_enabled_written busy_state (ctl_write 0) with delayed_work := none }
            (ctl_write 1))
          [.start_busy (host_at 2000 9000000000 true),
           .update_busy (host_at 2010 9040000000 false),
           .work (host_at 2025 9100000000 false),
           .start_busy (host_at 2030 9120000000 true)] = some s2 ∧
        delayed_work_pending s2.delayed_work = false ∧
        s2.info.window_start_t = 1000 := by
  obtain ⟨-, -, -, s2, hr, hp, hw, -, -, -, -⟩ := disable_reenable_stalls kernel_hz250 busy_state
    (host_at 1001 5004000000 true) 25 (ctl_write 0) (ctl_write 1)
    [.start_busy (host_at 2000 9000000000 true),
     .update_busy (host_at 2010 9040000000 false),
     .work (host_at 2025 9100000000 false),
     .start_busy (host_at 2030 9120000000 true)]
    rfl (by decide) (by decide) (by decide) (by decide)
  exact ⟨s2, hr, hp, hw⟩

end FuseStat
